import Mathlib

/-!
Verification of the seed-data generation pipeline of the Amaluz candle-store
repository (app/db/data_generation/*).

Modelling conventions:
* Datetimes are rational numbers of seconds since 2022-01-01 00:00:00;
  timedeltas are rationals in seconds (1 day = 86400 s, 1 minute = 60 s).
* Quantities and counters are integers (Python ints).
* Calls to `random.*` are modelled as explicit parameters, constrained by
  hypotheses that mirror the `randint`/`uniform`/`random` ranges of the source.
* Database rows are plain structures; the database session is a structure of
  lists, looked up by `producto_id` exactly where the source issues a query.
* Fallible functions return `Except`/`Bool × state` mirroring the source's
  raised exceptions and `(éxito, ...)` tuples.
-/

namespace Amaluz

/-- 2022-01-15 00:00:00, from utils_datetime.SIMULATION_START_DATE. -/
def SIMULATION_START_DATE : Int := 1209600

/-- 2025-04-30 23:59:59, from utils_datetime.SIMULATION_END_DATE. -/
def SIMULATION_END_DATE : Int := 105062399

/-- 2022-01-15 00:00:00, from utils_datetime.PRODUCTOS_START_DATE_LIMIT. -/
def PRODUCTOS_START_DATE_LIMIT : Int := 1209600

/-- 2025-04-15 23:59:59, from utils_datetime.PRODUCTOS_END_DATE_LIMIT. -/
def PRODUCTOS_END_DATE_LIMIT : Int := 103766399

/-- 2025-05-15 10:00:00, the separate PRODUCTOS_END_DATE_LIMIT constant defined
at the top of inventario.py. -/
def PRODUCTOS_END_DATE_LIMIT_INVENTARIO : Int := 106308000

/-- inventario.MIN_SECONDS_AFTER_PREVIOUS_UPDATE. -/
def MIN_SECONDS_AFTER_PREVIOUS_UPDATE : Int := 1

/-- inventario.UMBRAL_REPOSICION (restock threshold, units). -/
def UMBRAL_REPOSICION : Int := 12

/-- inventario.PERIODO_MINIMO_REPOSICION (restock cooldown, days). -/
def PERIODO_MINIMO_REPOSICION : Int := 20

/-- utils_datetime.generar_fecha_secuencial.  `ValueError`s become `.error`
with the source's message; the float seconds arithmetic is carried out in ℚ. -/
def generar_fecha_secuencial (fecha_inicio_rango fecha_fin_rango : ℚ)
    (total_elementos indice_actual : Int) : Except String ℚ :=
  if total_elementos ≤ 0 then
    .error "El total de elementos debe ser positivo."
  else if ¬(0 ≤ indice_actual ∧ indice_actual < total_elementos) then
    .error "El índice actual está fuera de rango."
  else if fecha_inicio_rango > fecha_fin_rango then
    .error "La fecha de inicio no puede ser posterior a la fecha de fin."
  else
    let rango_total_segundos := fecha_fin_rango - fecha_inicio_rango
    let paso_segundos : ℚ :=
      if total_elementos = 1 then 0
      else rango_total_segundos / (((total_elementos - 1 : Int) : ℚ))
    let segundos_a_sumar := (indice_actual : ℚ) * paso_segundos
    let fecha_generada := fecha_inicio_rango + segundos_a_sumar
    .ok (min fecha_generada fecha_fin_rango)

/-- utils_datetime.get_random_datetime_in_range.  `rand_chico` stands for the
`random.randint(1, 300)` draw of the `min_date >= max_date` branch and
`rand_rango` for the `random.randint(0, int(total_seconds))` draw of the normal
branch (`int` truncates the nonnegative difference, i.e. takes its floor). -/
def get_random_datetime_in_range (min_date max_date : Int)
    (rand_chico rand_rango : Int) : Int :=
  if min_date ≥ max_date then
    min_date + rand_chico
  else
    min_date + rand_rango

/-- models.producto.EstadoProductoEnum. -/
inductive EstadoProducto where
  | Activo
  | Inactivo
deriving Repr, DecidableEq

/-- models.pedido.EstadoPedidoEnum. -/
inductive EstadoPedido where
  | Pendiente
  | Procesando
  | Enviado
  | Entregado
  | Cancelado
  | Reembolsado
deriving Repr, DecidableEq

/-- models.producto.Producto, restricted to the fields the generation pipeline
reads or writes. -/
structure Producto where
  id : Nat
  precio_venta : ℚ
  estado : EstadoProducto
  fecha_registro : Int
  fecha_actualizacion : Int
deriving Repr, DecidableEq

/-- models.inventario.Inventario. -/
structure Inventario where
  producto_id : Nat
  cantidad_mano : Int
  cantidad_disponible : Int
  fecha_registro : Int
  fecha_actualizacion : Int
deriving Repr, DecidableEq

/-- models.carrito.Carrito, restricted to the fields read by the order
pipeline. -/
structure Carrito where
  usuario_id : Nat
  producto_id : Nat
  cantidad : Int
  fecha_actualizacion : Int
deriving Repr, DecidableEq

/-- models.detalle_pedido.DetallePedido. -/
structure DetallePedido where
  producto_id : Nat
  cantidad : Int
  precio_unitario : ℚ
  subtotal : ℚ
  fecha_registro : Int
  fecha_actualizacion : Int
deriving Repr, DecidableEq

/-- models.pedido.Pedido, restricted to the lifecycle fields; `detalles` is
the ORM relationship used by update_pedido_a_cancelado. -/
structure Pedido where
  estado_pedido : EstadoPedido
  fecha_registro : Int
  fecha_actualizacion : Int
  detalles : List DetallePedido
deriving Repr, DecidableEq

/-- models.descuento.Descuento, restricted to the fields read by
create_pedidos. -/
structure Descuento where
  id : Nat
  porcentaje : ℚ
  fecha_inicio : Int
  fecha_fin : Int
deriving Repr, DecidableEq

/-- models.proveedor.Proveedor, restricted to the fields read by
create_productos. -/
structure Proveedor where
  id : Nat
  fecha_registro : Int
deriving Repr, DecidableEq

/-- The slice of the database session visible to one inventory operation:
the Inventario row of the product, the Producto row (`db.query(Producto).get`
may return None) and this product's entry of the module-level
`ultimas_reposiciones` map. -/
structure EstadoInv where
  inventario : Inventario
  producto : Option Producto
  ultima_reposicion : Option Int
deriving Repr, DecidableEq

/-- inventario.determinar_cantidad_reposicion (pure lookup table). -/
def determinar_cantidad_reposicion (nivel_popularidad ranking_en_categoria : Int) : Int :=
  if nivel_popularidad ≥ 8 then
    if ranking_en_categoria = 1 then 108
    else if ranking_en_categoria ≤ 4 then 96
    else 84
  else if nivel_popularidad ≥ 4 then
    if ranking_en_categoria = 1 then 72
    else if ranking_en_categoria ≤ 3 then 64
    else 48
  else
    if ranking_en_categoria = 1 then 36
    else if ranking_en_categoria ≤ 3 then 24
    else 12

/-- inventario.create_inventario_inicial, one row: both quantities start at
`cantidad_inicial = 24` and fecha_actualizacion equals fecha_registro.  The
randomly drawn registration date is passed in as `fecha_registro_inv`. -/
def create_inventario_inicial_row (producto : Producto) (fecha_registro_inv : Int) :
    Inventario :=
  { producto_id := producto.id,
    cantidad_mano := 24,
    cantidad_disponible := 24,
    fecha_registro := fecha_registro_inv,
    fecha_actualizacion := fecha_registro_inv }

/-- The cooldown test of verificar_reposicion_inventario: a previous restock
is recorded for the product and fewer than PERIODO_MINIMO_REPOSICION days have
passed since it. -/
def reposicion_bloqueada (ultima_reposicion : Option Int) (fecha_operacion : Int) : Bool :=
  match ultima_reposicion with
  | some ultima => fecha_operacion < ultima + PERIODO_MINIMO_REPOSICION * 86400
  | none => false

/-- The restock date actually assigned by verificar_reposicion_inventario:
fecha_operacion plus the 1-5 day draw, capped at the inventory module's
product date limit, then bumped just past the row's previous
fecha_actualizacion if time would not advance. -/
def fecha_nueva_reposicion (fecha_previa fecha_operacion : Int)
    (dias_reposicion : Int) : Int :=
  let fecha_reposicion_calculada :=
    min (fecha_operacion + dias_reposicion * 86400)
      PRODUCTOS_END_DATE_LIMIT_INVENTARIO
  if fecha_reposicion_calculada ≤ fecha_previa then
    fecha_previa + MIN_SECONDS_AFTER_PREVIOUS_UPDATE
  else fecha_reposicion_calculada

/-- The mutation performed by verificar_reposicion_inventario when it does
restock: credit both quantities, advance the row's date, reactivate an
inactive product, and record the restock date in ultimas_reposiciones. -/
def reponer_inventario_en (s : EstadoInv) (fecha_operacion : Int)
    (dias_reposicion cantidad_repuesta : Int) : EstadoInv :=
  let nueva_fecha := fecha_nueva_reposicion s.inventario.fecha_actualizacion
    fecha_operacion dias_reposicion
  let inventario : Inventario :=
    { s.inventario with
      cantidad_disponible := s.inventario.cantidad_disponible + cantidad_repuesta,
      cantidad_mano := s.inventario.cantidad_mano + cantidad_repuesta,
      fecha_actualizacion := nueva_fecha }
  let producto : Option Producto :=
    match s.producto with
    | some p =>
      if p.estado = EstadoProducto.Inactivo then
        let fecha_reactivacion :=
          if nueva_fecha ≤ p.fecha_actualizacion then
            p.fecha_actualizacion + MIN_SECONDS_AFTER_PREVIOUS_UPDATE
          else nueva_fecha
        some { p with estado := EstadoProducto.Activo, fecha_actualizacion := fecha_reactivacion }
      else some p
    | none => none
  { inventario := inventario, producto := producto,
    ultima_reposicion := some nueva_fecha }

/-- inventario.verificar_reposicion_inventario.  `dias_reposicion` is the
`random.randint(1, 5)` draw and `cantidad_repuesta` the amount computed by
calcular_cantidad_reposicion (a popularity lookup over the whole database,
passed in as a parameter; it is always a value of
determinar_cantidad_reposicion or the default 24). -/
def verificar_reposicion_inventario (s : EstadoInv) (fecha_operacion : Int)
    (dias_reposicion cantidad_repuesta : Int) : Bool × EstadoInv :=
  if s.inventario.cantidad_disponible < UMBRAL_REPOSICION then
    if reposicion_bloqueada s.ultima_reposicion fecha_operacion then
      (false, s)
    else
      (true, reponer_inventario_en s fecha_operacion dias_reposicion cantidad_repuesta)
  else
    (false, s)

/-- The mutation performed by actualizar_inventario_por_pedido when stock
suffices: debit both quantities, advance the row's date, and deactivate the
product when available stock reaches zero. -/
def debitar_inventario (s : EstadoInv) (cantidad_solicitada : Int)
    (fecha_operacion : Int) : EstadoInv :=
  let inventario : Inventario :=
    { s.inventario with
      cantidad_disponible := s.inventario.cantidad_disponible - cantidad_solicitada,
      cantidad_mano := s.inventario.cantidad_mano - cantidad_solicitada,
      fecha_actualizacion := fecha_operacion }
  let producto : Option Producto :=
    if inventario.cantidad_disponible = 0 then
      match s.producto with
      | some p =>
        if p.estado ≠ EstadoProducto.Inactivo then
          some { p with estado := EstadoProducto.Inactivo, fecha_actualizacion := fecha_operacion }
        else some p
      | none => none
    else s.producto
  { inventario := inventario, producto := producto,
    ultima_reposicion := s.ultima_reposicion }

/-- inventario.actualizar_inventario_por_pedido (the Inventario row was found;
the missing-row branch simply returns False at the database wrapper level).
`cantidad_solicitada` is detalle_pedido.cantidad; the two trailing parameters
feed the nested verificar_reposicion_inventario call. -/
def actualizar_inventario_por_pedido (s : EstadoInv) (cantidad_solicitada : Int)
    (fecha_operacion : Int) (dias_reposicion cantidad_repuesta : Int) :
    Bool × EstadoInv :=
  if s.inventario.cantidad_disponible < cantidad_solicitada then
    (false, s)
  else
    let s1 := debitar_inventario s cantidad_solicitada fecha_operacion
    let reponer := verificar_reposicion_inventario s1 fecha_operacion
      dias_reposicion cantidad_repuesta
    (true, reponer.2)

/-- inventario.reponer_stock_tras_cancelacion (the Inventario row was found).
Credits both quantities and reactivates an inactive product that regained
stock; never touches ultimas_reposiciones. -/
def reponer_stock_tras_cancelacion (s : EstadoInv) (cantidad_repuesta : Int)
    (fecha_operacion : Int) : Bool × EstadoInv :=
  let cantidad_anterior_disponible := s.inventario.cantidad_disponible
  let inventario : Inventario :=
    { s.inventario with
      cantidad_disponible := s.inventario.cantidad_disponible + cantidad_repuesta,
      cantidad_mano := s.inventario.cantidad_mano + cantidad_repuesta,
      fecha_actualizacion := fecha_operacion }
  let producto : Option Producto :=
    if cantidad_anterior_disponible ≤ 0 ∧ 0 < inventario.cantidad_disponible then
      match s.producto with
      | some p =>
        if p.estado = EstadoProducto.Inactivo then
          some { p with estado := EstadoProducto.Activo, fecha_actualizacion := fecha_operacion }
        else some p
      | none => none
    else s.producto
  (true, { inventario := inventario, producto := producto,
           ultima_reposicion := s.ultima_reposicion })

/-- The database session as seen by the order-detail pipeline, together with
the module-level ultimas_reposiciones map of inventario.py. -/
structure BD where
  productos : List Producto
  inventarios : List Inventario
  ultimas_reposiciones : List (Nat × Int)
deriving Repr, DecidableEq

/-- db.query(Producto).get(producto_id): first row with that id, if any. -/
def buscarProducto : List Producto → Nat → Option Producto
  | [], _ => none
  | p :: resto, pid => if p.id = pid then some p else buscarProducto resto pid

/-- db.query(Inventario).filter(Inventario.producto_id == pid).first(). -/
def buscarInventario : List Inventario → Nat → Option Inventario
  | [], _ => none
  | inv :: resto, pid =>
    if inv.producto_id = pid then some inv else buscarInventario resto pid

/-- Write back a mutated Producto row (ORM mutation of the fetched row). -/
def reemplazarProducto : List Producto → Producto → List Producto
  | [], _ => []
  | p :: resto, nuevo =>
    if p.id = nuevo.id then nuevo :: resto else p :: reemplazarProducto resto nuevo

/-- Write back a mutated Inventario row (ORM mutation of the fetched row). -/
def reemplazarInventario : List Inventario → Inventario → List Inventario
  | [], _ => []
  | inv :: resto, nuevo =>
    if inv.producto_id = nuevo.producto_id then nuevo :: resto
    else inv :: reemplazarInventario resto nuevo

/-- ultimas_reposiciones.get(producto_id). -/
def buscarUltima : List (Nat × Int) → Nat → Option Int
  | [], _ => none
  | (pid, f) :: resto, objetivo =>
    if pid = objetivo then some f else buscarUltima resto objetivo

/-- ultimas_reposiciones[producto_id] = fecha (update or insert). -/
def fijarUltima : List (Nat × Int) → Nat → Int → List (Nat × Int)
  | [], objetivo, fecha => [(objetivo, fecha)]
  | (pid, f) :: resto, objetivo, fecha =>
    if pid = objetivo then (objetivo, fecha) :: resto
    else (pid, f) :: fijarUltima resto objetivo fecha

/-- Assemble the per-product view an inventory operation works on. -/
def estadoInvDe (bd : BD) (producto_id : Nat) : Option EstadoInv :=
  match buscarInventario bd.inventarios producto_id with
  | none => none
  | some inv =>
    some { inventario := inv,
           producto := buscarProducto bd.productos producto_id,
           ultima_reposicion := buscarUltima bd.ultimas_reposiciones producto_id }

/-- Persist the per-product view back into the session. -/
def escribirEstadoInv (bd : BD) (producto_id : Nat) (s : EstadoInv) : BD :=
  { productos :=
      match s.producto with
      | some p => reemplazarProducto bd.productos p
      | none => bd.productos,
    inventarios := reemplazarInventario bd.inventarios s.inventario,
    ultimas_reposiciones :=
      match s.ultima_reposicion with
      | some f => fijarUltima bd.ultimas_reposiciones producto_id f
      | none => bd.ultimas_reposiciones }

/-- inventario.reponer_stock_tras_cancelacion at the session level: returns
(False, unchanged) when the Inventario row is missing, exactly as the
source's early return. -/
def reponer_stock_tras_cancelacion_bd (bd : BD) (producto_id : Nat)
    (cantidad_repuesta : Int) (fecha_operacion : Int) : Bool × BD :=
  match estadoInvDe bd producto_id with
  | none => (false, bd)
  | some s =>
    let r := reponer_stock_tras_cancelacion s cantidad_repuesta fecha_operacion
    (r.1, escribirEstadoInv bd producto_id r.2)

/-- inventario.actualizar_inventario_por_pedido at the session level. -/
def actualizar_inventario_por_pedido_bd (bd : BD) (producto_id : Nat)
    (cantidad_solicitada : Int) (fecha_operacion : Int)
    (dias_reposicion cantidad_repuesta : Int) : Bool × BD :=
  match estadoInvDe bd producto_id with
  | none => (false, bd)
  | some s =>
    let r := actualizar_inventario_por_pedido s cantidad_solicitada fecha_operacion
      dias_reposicion cantidad_repuesta
    (r.1, escribirEstadoInv bd producto_id r.2)

/-- detalle_pedido.update_pedido_a_procesando: guard on source state and on
`fecha_actualizacion < fecha <= SIMULATION_END_DATE`, silent no-op
otherwise. -/
def update_pedido_a_procesando (pedido : Pedido) (fecha_procesando : Int) :
    Bool × Pedido :=
  if pedido.estado_pedido = EstadoPedido.Pendiente ∧
      pedido.fecha_actualizacion < fecha_procesando ∧
      fecha_procesando ≤ SIMULATION_END_DATE then
    (true,
    { pedido with
      estado_pedido := EstadoPedido.Procesando,
      fecha_actualizacion := fecha_procesando })
  else (false, pedido)

/-- Replenish stock for every order detail (the loop inside
update_pedido_a_cancelado over pedido.detalles). -/
def reponer_detalles : BD → List DetallePedido → Int → BD
  | bd, [], _ => bd
  | bd, detalle :: resto, fecha =>
    let r := reponer_stock_tras_cancelacion_bd bd detalle.producto_id
      detalle.cantidad fecha
    reponer_detalles r.2 resto fecha

/-- detalle_pedido.update_pedido_a_cancelado: same guard shape, and on success
credits back detalle.cantidad for every detail line via
reponer_stock_tras_cancelacion. -/
def update_pedido_a_cancelado (bd : BD) (pedido : Pedido) (fecha_cancelacion : Int) :
    Bool × Pedido × BD :=
  if pedido.estado_pedido = EstadoPedido.Pendiente ∧
      pedido.fecha_actualizacion < fecha_cancelacion ∧
      fecha_cancelacion ≤ SIMULATION_END_DATE then
    let pedido1 :=
      { pedido with
        estado_pedido := EstadoPedido.Cancelado,
        fecha_actualizacion := fecha_cancelacion }
    (true, pedido1, reponer_detalles bd pedido1.detalles fecha_cancelacion)
  else (false, pedido, bd)

/-- detalle_pedido.update_pedido_a_enviado. -/
def update_pedido_a_enviado (pedido : Pedido) (fecha_envio : Int) : Bool × Pedido :=
  if pedido.estado_pedido = EstadoPedido.Procesando ∧
      pedido.fecha_actualizacion < fecha_envio ∧
      fecha_envio ≤ SIMULATION_END_DATE then
    (true,
    { pedido with
      estado_pedido := EstadoPedido.Enviado,
      fecha_actualizacion := fecha_envio })
  else (false, pedido)

/-- detalle_pedido.update_pedido_a_entregado. -/
def update_pedido_a_entregado (pedido : Pedido) (fecha_entrega : Int) : Bool × Pedido :=
  if pedido.estado_pedido = EstadoPedido.Enviado ∧
      pedido.fecha_actualizacion < fecha_entrega ∧
      fecha_entrega ≤ SIMULATION_END_DATE then
    (true,
    { pedido with
      estado_pedido := EstadoPedido.Entregado,
      fecha_actualizacion := fecha_entrega })
  else (false, pedido)

/-- detalle_pedido.update_pedido_a_reembolsado (from Entregado or Cancelado). -/
def update_pedido_a_reembolsado (pedido : Pedido) (fecha_reembolso : Int) :
    Bool × Pedido :=
  if (pedido.estado_pedido = EstadoPedido.Entregado ∨
      pedido.estado_pedido = EstadoPedido.Cancelado) ∧
      pedido.fecha_actualizacion < fecha_reembolso ∧
      fecha_reembolso ≤ SIMULATION_END_DATE then
    (true,
    { pedido with
      estado_pedido := EstadoPedido.Reembolsado,
      fecha_actualizacion := fecha_reembolso })
  else (false, pedido)

/-- detalle_pedido._calcular_fecha_procesando_simulacion; `delta_minutos` is
the `random.randint(30, 60)` draw. -/
def calcular_fecha_procesando_simulacion (fecha_creacion_pedido : Int)
    (delta_minutos : Int) : Int :=
  min (fecha_creacion_pedido + delta_minutos * 60) SIMULATION_END_DATE

/-- detalle_pedido._calcular_fecha_envio_simulacion; `delta_dias` is
`random.randint(1, 2)` and `delta_segundos` is `random.randint(0, 86399)`. -/
def calcular_fecha_envio_simulacion (fecha_creacion_pedido fecha_referencia_anterior : Int)
    (delta_dias delta_segundos : Int) : Int :=
  min (max (fecha_creacion_pedido + delta_dias * 86400 + delta_segundos)
        (fecha_referencia_anterior + 1))
    SIMULATION_END_DATE

/-- detalle_pedido._calcular_fecha_entrega_simulacion; `delta_dias` is
`random.randint(4, 10)` and `delta_segundos` is `random.randint(0, 86399)`. -/
def calcular_fecha_entrega_simulacion (fecha_creacion_pedido fecha_referencia_anterior : Int)
    (delta_dias delta_segundos : Int) : Int :=
  min (max (fecha_creacion_pedido + delta_dias * 86400 + delta_segundos)
        (fecha_referencia_anterior + 1))
    SIMULATION_END_DATE

/-- The random draws consumed by one run of create_detalles_for_pedido's
lifecycle simulation, with the distributions noted field by field. -/
structure ParamsCicloVida where
  /-- random.random() < PORCENTAJE_CANCELACION_DETALLE (5%). -/
  cancelar_sorteo : Bool
  /-- random.randint(1, 29) minutes for the cancellation date. -/
  delta_cancelacion_minutos : Int
  /-- random.randint(30, 60) minutes for the processing date. -/
  delta_procesando_minutos : Int
  /-- random.randint(1, 2) days for the shipping date. -/
  envio_dias : Int
  /-- random.randint(0, 86399) extra seconds for the shipping date. -/
  envio_segundos : Int
  /-- random.randint(4, 10) days for the delivery date. -/
  entrega_dias : Int
  /-- random.randint(0, 86399) extra seconds for the delivery date. -/
  entrega_segundos : Int
  /-- random.random() < 3% refund draw from Entregado. -/
  reembolso_entregado_sorteo : Bool
  /-- random.random() < 1% refund draw from Cancelado. -/
  reembolso_cancelado_sorteo : Bool
  /-- result of generate_subsequent_update_datetime for the refund date. -/
  fecha_reembolso : Int
  /-- per-detail random.randint(1, 5) draws inside the restock check. -/
  dias_reposicion : Nat → Int
  /-- per-detail calcular_cantidad_reposicion results. -/
  cantidad_reposicion : Nat → Int

/-- First phase of create_detalles_for_pedido: build the DetallePedido rows
from the cart items, skipping missing products, temporally incoherent
products, missing inventory rows and exhausted stock, and capping the
quantity at the currently available stock.  No inventory is debited here. -/
def construir_detalles (bd : BD) (carritos_usuario : List Carrito)
    (fecha_creacion : Int) : List DetallePedido :=
  match carritos_usuario with
  | [] => []
  | carrito :: resto =>
    let siguientes := construir_detalles bd resto fecha_creacion
    match buscarProducto bd.productos carrito.producto_id with
    | none => siguientes
    | some producto =>
      if producto.fecha_registro > fecha_creacion then siguientes
      else
        match buscarInventario bd.inventarios carrito.producto_id with
        | none => siguientes
        | some inventario =>
          if inventario.cantidad_disponible ≤ 0 then siguientes
          else
            let cantidad :=
              if carrito.cantidad > inventario.cantidad_disponible then
                inventario.cantidad_disponible
              else carrito.cantidad
            let precio_unitario := producto.precio_venta
            { producto_id := carrito.producto_id,
              cantidad := cantidad,
              precio_unitario := precio_unitario,
              subtotal := (cantidad : ℚ) * precio_unitario,
              fecha_registro := fecha_creacion,
              fecha_actualizacion := fecha_creacion } :: siguientes

/-- Gross total accumulated over the created details. -/
def costo_total_bruto_de (detalles : List DetallePedido) : ℚ :=
  detalles.foldr (fun d acc => d.subtotal + acc) 0

/-- Final phase of create_detalles_for_pedido: debit inventory for each
detail (only reached when the order was not cancelled), including the extra
product-deactivation block run when the updated row hits zero stock. -/
def actualizar_detalles (fecha_creacion fecha_actual_del_pedido : Int)
    (dias_reposicion cantidad_reposicion : Nat → Int) :
    BD → List DetallePedido → Nat → BD
  | bd, [], _ => bd
  | bd, detalle :: resto, k =>
    let r := actualizar_inventario_por_pedido_bd bd detalle.producto_id
      detalle.cantidad fecha_creacion (dias_reposicion k) (cantidad_reposicion k)
    let bd1 := r.2
    let bd2 :=
      if r.1 then
        match buscarInventario bd1.inventarios detalle.producto_id with
        | some inv =>
          if inv.cantidad_disponible = 0 then
            match buscarProducto bd1.productos detalle.producto_id with
            | some p =>
              if p.estado ≠ EstadoProducto.Inactivo then
                let p1 : Producto :=
                  { p with
                    estado := EstadoProducto.Inactivo,
                    fecha_actualizacion := max fecha_creacion fecha_actual_del_pedido }
                { bd1 with productos := reemplazarProducto bd1.productos p1 }
              else bd1
            | none => bd1
          else bd1
        | none => bd1
      else bd1
    actualizar_detalles fecha_creacion fecha_actual_del_pedido dias_reposicion
      cantidad_reposicion bd2 resto (k + 1)

/-- detalle_pedido.create_detalles_for_pedido: builds the detail rows, runs
the lifecycle simulation (cancellation attempt, then
Pendiente→Procesando→Enviado→Entregado, then the refund draws) and debits
inventory for each detail only when the order was not cancelled during this
simulation.  Returns the session, the final order and the gross total. -/
def create_detalles_for_pedido (bd : BD) (pedido : Pedido)
    (carritos_usuario : List Carrito) (fecha_creacion : Int)
    (params : ParamsCicloVida) : BD × Pedido × ℚ :=
  let detalles_creados := construir_detalles bd carritos_usuario fecha_creacion
  let costo := costo_total_bruto_de detalles_creados
  if detalles_creados = [] then (bd, pedido, costo)
  else
    let pedido1 := { pedido with detalles := detalles_creados }
    let paso1 : Bool × Pedido × BD :=
      if params.cancelar_sorteo then
        let fecha_cancelacion_simulada :=
          min (pedido1.fecha_registro + params.delta_cancelacion_minutos * 60)
            SIMULATION_END_DATE
        if fecha_cancelacion_simulada > pedido1.fecha_actualizacion then
          update_pedido_a_cancelado bd pedido1 fecha_cancelacion_simulada
        else (false, pedido1, bd)
      else (false, pedido1, bd)
    let pedido_fue_cancelado_simulado := paso1.1
    let pedido2 := paso1.2.1
    let bd2 := paso1.2.2
    let paso2 : Bool × Pedido :=
      if ¬pedido_fue_cancelado_simulado ∧
          pedido2.estado_pedido = EstadoPedido.Pendiente then
        let fecha_procesando := calcular_fecha_procesando_simulacion
          pedido2.fecha_registro params.delta_procesando_minutos
        if fecha_procesando > pedido2.fecha_actualizacion then
          update_pedido_a_procesando pedido2 fecha_procesando
        else (false, pedido2)
      else (false, pedido2)
    let pedido3 := paso2.2
    let paso3 : Bool × Pedido :=
      if pedido3.estado_pedido = EstadoPedido.Procesando then
        let fecha_envio := calcular_fecha_envio_simulacion pedido3.fecha_registro
          pedido3.fecha_actualizacion params.envio_dias params.envio_segundos
        if fecha_envio > pedido3.fecha_actualizacion then
          update_pedido_a_enviado pedido3 fecha_envio
        else (false, pedido3)
      else (false, pedido3)
    let pedido4 := paso3.2
    let paso4 : Bool × Pedido :=
      if pedido4.estado_pedido = EstadoPedido.Enviado then
        let fecha_entrega := calcular_fecha_entrega_simulacion pedido4.fecha_registro
          pedido4.fecha_actualizacion params.entrega_dias params.entrega_segundos
        if fecha_entrega > pedido4.fecha_actualizacion then
          update_pedido_a_entregado pedido4 fecha_entrega
        else (false, pedido4)
      else (false, pedido4)
    let pedido5 := paso4.2
    let paso5 : Bool × Pedido :=
      if pedido5.estado_pedido = EstadoPedido.Entregado ∧
          params.reembolso_entregado_sorteo then
        if params.fecha_reembolso > pedido5.fecha_actualizacion then
          update_pedido_a_reembolsado pedido5 params.fecha_reembolso
        else (false, pedido5)
      else if pedido5.estado_pedido = EstadoPedido.Cancelado ∧
          params.reembolso_cancelado_sorteo then
        if params.fecha_reembolso > pedido5.fecha_actualizacion then
          update_pedido_a_reembolsado pedido5 params.fecha_reembolso
        else (false, pedido5)
      else (false, pedido5)
    let pedido6 := paso5.2
    let bd_final :=
      if ¬pedido_fue_cancelado_simulado then
        actualizar_detalles fecha_creacion pedido6.fecha_actualizacion
          params.dias_reposicion params.cantidad_reposicion bd2 detalles_creados 0
      else bd2
    (bd_final, pedido6, costo)

/-- models.historial_descuento.HistorialDescuento, the row recorded when a
discount is applied to an order. -/
structure HistorialDescuento where
  usuario_id : Nat
  descuento_id : Nat
  fecha_registro : Int
  fecha_actualizacion : Int
deriving Repr, DecidableEq

/-- pedidos.create_pedidos, PASO 3, first filter: discounts whose validity
window contains the order date. -/
def filtrar_descuentos_validos (todos_los_descuentos : List Descuento)
    (fecha_pedido_definitiva : Int) : List Descuento :=
  todos_los_descuentos.filter (fun d =>
    decide (d.fecha_inicio ≤ fecha_pedido_definitiva ∧
      fecha_pedido_definitiva ≤ d.fecha_fin))

/-- pedidos.create_pedidos, PASO 3, second filter: discounts this user has no
HistorialDescuento row for.  `usuario_ya_uso` is the outcome of the per-id
HistorialDescuento query. -/
def filtrar_descuentos_no_usados (descuentos_validos : List Descuento)
    (usuario_ya_uso : Nat → Bool) : List Descuento :=
  descuentos_validos.filter (fun d => !usuario_ya_uso d.id)

/-- pedidos.create_pedidos, PASO 3: the discount applied to the order, if any.
`sorteo_usar_descuento` is the draw `random.random() < random.uniform(0.75,
0.95)` and `eleccion` the index drawn by random.choice. -/
def seleccionar_descuento (todos_los_descuentos : List Descuento)
    (usuario_ya_uso : Nat → Bool) (fecha_pedido_definitiva : Int)
    (sorteo_usar_descuento : Bool) (eleccion : Nat) : Option Descuento :=
  if todos_los_descuentos.isEmpty then none
  else if (filtrar_descuentos_validos todos_los_descuentos
      fecha_pedido_definitiva).isEmpty then none
  else if ¬(filtrar_descuentos_no_usados
        (filtrar_descuentos_validos todos_los_descuentos fecha_pedido_definitiva)
        usuario_ya_uso).isEmpty ∧ sorteo_usar_descuento then
    (filtrar_descuentos_no_usados
        (filtrar_descuentos_validos todos_los_descuentos fecha_pedido_definitiva)
        usuario_ya_uso).get?
      (eleccion % (filtrar_descuentos_no_usados
        (filtrar_descuentos_validos todos_los_descuentos fecha_pedido_definitiva)
        usuario_ya_uso).length)
  else none

/-- pedidos.create_pedidos, PASO 4 and PASO 7: the created order (state
Pendiente, fecha_registro = fecha_actualizacion = fecha_pedido_definitiva at
creation) and, when a discount was selected, the HistorialDescuento row
recorded for it. -/
def crear_pedido_con_descuento (usuario_id : Nat) (fecha_pedido_definitiva : Int)
    (todos_los_descuentos : List Descuento) (usuario_ya_uso : Nat → Bool)
    (sorteo_usar_descuento : Bool) (eleccion : Nat) :
    Pedido × Option (Descuento × HistorialDescuento) :=
  let nuevo_pedido : Pedido :=
    { estado_pedido := EstadoPedido.Pendiente
    , fecha_registro := fecha_pedido_definitiva
    , fecha_actualizacion := fecha_pedido_definitiva
    , detalles := [] }
  match seleccionar_descuento todos_los_descuentos usuario_ya_uso
      fecha_pedido_definitiva sorteo_usar_descuento eleccion with
  | none => (nuevo_pedido, none)
  | some descuento_aplicado =>
    (nuevo_pedido,
      some (descuento_aplicado,
        { usuario_id := usuario_id
        , descuento_id := descuento_aplicado.id
        , fecha_registro := fecha_pedido_definitiva
        , fecha_actualizacion := fecha_pedido_definitiva }))

/-- pedidos.create_pedidos: `num_sesiones_a_convertir = max(1,
int(len(sesiones_compra) * porcentaje_conversion))`; `int` truncates the
nonnegative product, i.e. takes its floor. -/
def num_sesiones_a_convertir (num_sesiones : Nat) (porcentaje_conversion : ℚ) : Nat :=
  max 1 (Int.toNat ⌊(num_sesiones : ℚ) * porcentaje_conversion⌋)

/-- pedidos.create_pedidos, main loop, restricted to the acceptance decision:
one `random.random()` draw per purchase session, processed in order.
`sesiones_restantes` is the sessions left after the current one (the source
increments `contador_procesados` before subtracting), the loop breaks once
`pedidos_restantes` reaches zero, and a session is abandoned exactly when the
draw exceeds the dynamic probability.  Returns how many orders are created,
under the assumption that every accepted session yields an order. -/
def convertir_sesiones : List ℚ → Nat → Nat
  | [], _ => 0
  | sorteo :: sesiones_posteriores, pedidos_restantes =>
    if pedidos_restantes = 0 then 0
    else
      if sorteo > (if sesiones_posteriores.length > 0 then
          (pedidos_restantes : ℚ) / (sesiones_posteriores.length : ℚ)
        else 1) then
        convertir_sesiones sesiones_posteriores pedidos_restantes
      else
        1 + convertir_sesiones sesiones_posteriores (pedidos_restantes - 1)

/-- The random draws consumed for one product by create_productos' date
logic. -/
structure RandomProducto where
  /-- randint(1,12) hours + randint(0,59) minutes, in seconds; only used for
  the first product of a provider. -/
  retraso_primer_producto : Int
  /-- randint(0,1) days + randint(0,8) hours + randint(1,59) minutes +
  randint(0,59) seconds, in seconds. -/
  incremento_secuencial : Int
  /-- randint(1,300) seconds, the tightened increment near the date limit. -/
  incremento_apretado : Int

/-- The provider-side lower bound for a product date: the provider's
registration, plus the random 1-12 h delay for its first product. -/
def fecha_min_por_proveedor (fecha_registro_proveedor : Int)
    (primer_producto : Bool) (rp : RandomProducto) : Int :=
  if primer_producto then fecha_registro_proveedor + rp.retraso_primer_producto
  else fecha_registro_proveedor

/-- productos.create_productos, per-product date computation: the proposed
date, or the tightened one near the limit, or `none` when even the tightened
date reaches the limit (detener_creacion_total). -/
def fecha_producto (fecha_registro_proveedor ultima_fecha_registro_global
    fecha_limite_absoluta : Int) (primer_producto : Bool) (rp : RandomProducto) :
    Option Int :=
  if max (fecha_min_por_proveedor fecha_registro_proveedor primer_producto rp)
      (ultima_fecha_registro_global + rp.incremento_secuencial) ≥
      fecha_limite_absoluta then
    if max (fecha_min_por_proveedor fecha_registro_proveedor primer_producto rp)
        (ultima_fecha_registro_global + rp.incremento_apretado) ≥
        fecha_limite_absoluta then none
    else some (max (fecha_min_por_proveedor fecha_registro_proveedor primer_producto rp)
      (ultima_fecha_registro_global + rp.incremento_apretado))
  else some (max (fecha_min_por_proveedor fecha_registro_proveedor primer_producto rp)
    (ultima_fecha_registro_global + rp.incremento_secuencial))

/-- productos.create_productos, inner loop: the registration dates of one
provider's products, the final global clock, the next random index and the
detener_creacion_total flag. -/
def crear_fechas_proveedor (fecha_registro_proveedor fecha_limite_absoluta : Int)
    (rng : Nat → RandomProducto) :
    Nat → Int → Bool → Nat → List Int × Int × Nat × Bool
  | 0, ultima, _, k => ([], ultima, k, false)
  | n + 1, ultima, primer_producto, k =>
    match fecha_producto fecha_registro_proveedor ultima fecha_limite_absoluta
        primer_producto (rng k) with
    | none => ([], ultima, k, true)
    | some fecha_registro =>
      ((fecha_registro :: (crear_fechas_proveedor fecha_registro_proveedor
          fecha_limite_absoluta rng n fecha_registro false (k + 1)).1,
        (crear_fechas_proveedor fecha_registro_proveedor
          fecha_limite_absoluta rng n fecha_registro false (k + 1)).2))

/-- productos.create_productos, outer loop over the ordered providers with
their planned counts: providers with no planned products are skipped, the
pre-check skips providers whose earliest possible first product already
reaches the limit, and detener_creacion_total aborts the remaining
providers. -/
def crear_productos_bucle (fecha_limite_absoluta : Int) (rng : Nat → RandomProducto) :
    List (Proveedor × Nat) → Int → Nat → List (Proveedor × Int)
  | [], _, _ => []
  | (proveedor_actual, cnt) :: resto, ultima, k =>
    if cnt = 0 then crear_productos_bucle fecha_limite_absoluta rng resto ultima k
    else if max (proveedor_actual.fecha_registro + 3600) (ultima + 1) ≥
        fecha_limite_absoluta then
      crear_productos_bucle fecha_limite_absoluta rng resto ultima k
    else if (crear_fechas_proveedor proveedor_actual.fecha_registro
        fecha_limite_absoluta rng cnt ultima true k).2.2.2 then
      (crear_fechas_proveedor proveedor_actual.fecha_registro
        fecha_limite_absoluta rng cnt ultima true k).1.map
        (fun f => (proveedor_actual, f))
    else
      (crear_fechas_proveedor proveedor_actual.fecha_registro
        fecha_limite_absoluta rng cnt ultima true k).1.map
        (fun f => (proveedor_actual, f)) ++
      crear_productos_bucle fecha_limite_absoluta rng resto
        (crear_fechas_proveedor proveedor_actual.fecha_registro
          fecha_limite_absoluta rng cnt ultima true k).2.1
        (crear_fechas_proveedor proveedor_actual.fecha_registro
          fecha_limite_absoluta rng cnt ultima true k).2.2.1

/-- productos_por_proveedor[objetivo] over the association list. -/
def obtenerConteo : List (Nat × Int) → Nat → Int
  | [], _ => 0
  | (pid, n) :: resto, objetivo =>
    if pid = objetivo then n else obtenerConteo resto objetivo

/-- productos_por_proveedor[objetivo] += delta over the association list. -/
def sumarConteo : List (Nat × Int) → Nat → Int → List (Nat × Int)
  | [], _, _ => []
  | (pid, n) :: resto, objetivo, delta =>
    if pid = objetivo then (pid, n + delta) :: resto
    else (pid, n) :: sumarConteo resto objetivo delta

/-- Sum of all planned counts. -/
def sumaConteos (conteos : List (Nat × Int)) : Int :=
  conteos.foldr (fun par acc => par.2 + acc) 0

/-- timedelta(...).days of the availability window used for weighting:
floor division of the total seconds by 86400, clamped to at least 1. -/
def dias_disponibles (p : Proveedor) : Int :=
  max 1 (Int.fdiv (PRODUCTOS_END_DATE_LIMIT - p.fecha_registro) 86400)

/-- Python's stable ascending sort by provider registration date, realised as
insertion sort on a strict key comparison (equal keys keep their order). -/
def ordenar_proveedores (proveedores : List Proveedor) : List Proveedor :=
  List.insertionSort (fun a b => a.fecha_registro < b.fecha_registro) proveedores

/-- Repeat `proveedores_ordenados_por_fraccion[i % num_proveedores] += 1` for
i = 0 .. faltan-1 (the largest-remainder pass and the equitable fallback and
the positive final adjustment all have this shape). -/
def repartir_ronda (orden : List Proveedor) (conteos : List (Nat × Int)) :
    Nat → Nat → List (Nat × Int)
  | _, 0 => conteos
  | i, n + 1 =>
    match orden.get? (i % orden.length) with
    | none => conteos
    | some prov =>
      repartir_ronda orden (sumarConteo conteos prov.id 1) (i + 1) n

/-- One step of the `diferencia_final_ajuste < 0` removal loop: re-sort by
current count (descending, stable), pick position i % n, and decrement it if
that keeps it above its minimum, else decrement the first provider. -/
def quitar_uno (ordenados : List Proveedor) (count : Nat)
    (conteos : List (Nat × Int)) (i : Nat) : List (Nat × Int) :=
  let orden_desc := List.insertionSort
    (fun a b => obtenerConteo conteos b.id < obtenerConteo conteos a.id) ordenados
  match orden_desc.get? (i % ordenados.length) with
  | none => conteos
  | some proveedor_a_quitar =>
    let minimo : Int :=
      if count ≥ ordenados.length ∧ 0 < obtenerConteo conteos proveedor_a_quitar.id
      then 1 else 0
    if minimo < obtenerConteo conteos proveedor_a_quitar.id then
      sumarConteo conteos proveedor_a_quitar.id (-1)
    else
      match ordenados.get? 0 with
      | none => conteos
      | some primero => sumarConteo conteos primero.id (-1)

/-- The removal loop itself. -/
def quitar_ronda (ordenados : List Proveedor) (count : Nat) :
    List (Nat × Int) → Nat → Nat → List (Nat × Int)
  | conteos, _, 0 => conteos
  | conteos, i, n + 1 =>
    quitar_ronda ordenados count (quitar_uno ordenados count conteos i) (i + 1) n

/-- productos.create_productos, distribution phase: base assignment,
proportional distribution of the remainder weighted by available days with
largest-remainder rounding, and the final adjustment towards exactly
`count`. -/
def distribuir_productos (count : Nat) (ordenados : List Proveedor) :
    List (Nat × Int) :=
  let num_proveedores := ordenados.length
  let base : List (Nat × Int) :=
    if count ≥ num_proveedores then ordenados.map (fun p => (p.id, 1))
    else (ordenados.take count).map (fun p => (p.id, (1 : Int))) ++
      (ordenados.drop count).map (fun p => (p.id, (0 : Int)))
  let productos_asignados_base : Int :=
    if count ≥ num_proveedores then num_proveedores else count
  let productos_restantes_para_distribuir : Int :=
    (count : Int) - productos_asignados_base
  let tras_proporcional : List (Nat × Int) :=
    if 0 < productos_restantes_para_distribuir then
      let total_dias_ponderados : Int :=
        (ordenados.map dias_disponibles).foldr (· + ·) 0
      if 0 < total_dias_ponderados then
        let asignacion_exacta : Proveedor → ℚ := fun p =>
          ((dias_disponibles p : ℚ) / (total_dias_ponderados : ℚ)) *
            (productos_restantes_para_distribuir : ℚ)
        let con_enteros := ordenados.foldl
          (fun conteos p => sumarConteo conteos p.id ⌊asignacion_exacta p⌋) base
        let productos_aun_restantes_redondeo : Int :=
          (count : Int) - sumaConteos con_enteros
        if 0 < productos_aun_restantes_redondeo then
          let orden_fraccion := List.insertionSort
            (fun a b => asignacion_exacta b - (⌊asignacion_exacta b⌋ : ℚ) <
              asignacion_exacta a - (⌊asignacion_exacta a⌋ : ℚ)) ordenados
          repartir_ronda orden_fraccion con_enteros 0
            productos_aun_restantes_redondeo.toNat
        else con_enteros
      else
        repartir_ronda ordenados base 0 productos_restantes_para_distribuir.toNat
    else base
  let diferencia_final_ajuste : Int := (count : Int) - sumaConteos tras_proporcional
  if 0 < diferencia_final_ajuste then
    repartir_ronda ordenados tras_proporcional 0 diferencia_final_ajuste.toNat
  else if diferencia_final_ajuste < 0 then
    quitar_ronda ordenados count tras_proporcional 0 (-diferencia_final_ajuste).toNat
  else tras_proporcional

/-- productos.create_productos: distribution, then the date-generation loop,
returning each created product as (its provider, its fecha_registro) in
creation order.  `ahora` is datetime.now() and `rng` the stream of random
draws. -/
def create_productos (count : Nat) (proveedores : List Proveedor) (ahora : Int)
    (rng : Nat → RandomProducto) : List (Proveedor × Int) :=
  match ordenar_proveedores proveedores with
  | [] => []
  | primero :: restantes =>
    let ordenados := primero :: restantes
    let plan := distribuir_productos count ordenados
    let ultima_fecha_registro_global :=
      max PRODUCTOS_START_DATE_LIMIT (primero.fecha_registro - 1)
    let fecha_limite_absoluta := min PRODUCTOS_END_DATE_LIMIT ahora
    crear_productos_bucle fecha_limite_absoluta rng
      (ordenados.map (fun p => (p, (obtenerConteo plan p.id).toNat)))
      ultima_fecha_registro_global 0

/-- The spec's inventory invariant: 0 ≤ available ≤ on hand. -/
def inventario_coherente (inv : Inventario) : Prop :=
  0 ≤ inv.cantidad_disponible ∧ inv.cantidad_disponible ≤ inv.cantidad_mano

/-- The stronger implicit invariant: available equals on hand. -/
def inventario_equilibrado (inv : Inventario) : Prop :=
  inv.cantidad_disponible = inv.cantidad_mano

/-- The order state machine the spec allows. -/
def transicion_permitida (origen destino : EstadoPedido) : Prop :=
  match origen, destino with
  | EstadoPedido.Pendiente, EstadoPedido.Procesando => True
  | EstadoPedido.Pendiente, EstadoPedido.Cancelado => True
  | EstadoPedido.Procesando, EstadoPedido.Enviado => True
  | EstadoPedido.Enviado, EstadoPedido.Entregado => True
  | EstadoPedido.Entregado, EstadoPedido.Reembolsado => True
  | EstadoPedido.Cancelado, EstadoPedido.Reembolsado => True
  | _, _ => False

/-- A one-product database used to exercise the cancellation path: 24 units
available and on hand before the order. -/
def producto_cancelacion : Producto :=
  { id := 1, precio_venta := 10, estado := EstadoProducto.Activo,
    fecha_registro := 0, fecha_actualizacion := 0 }

def inventario_cancelacion : Inventario :=
  { producto_id := 1, cantidad_mano := 24, cantidad_disponible := 24,
    fecha_registro := 0, fecha_actualizacion := 0 }

def bd_cancelacion : BD :=
  { productos := [producto_cancelacion],
    inventarios := [inventario_cancelacion],
    ultimas_reposiciones := [] }

/-- A freshly created Pending order at t = 1000 s. -/
def pedido_cancelacion : Pedido :=
  { estado_pedido := EstadoPedido.Pendiente, fecha_registro := 1000,
    fecha_actualizacion := 1000, detalles := [] }

/-- Draws for the run: the 5% cancellation draw is taken with a 10 minute
delay; all other draws are arbitrary in-range values (never reached on the
cancellation path). -/
def params_cancelacion : ParamsCicloVida :=
  { cancelar_sorteo := true, delta_cancelacion_minutos := 10,
    delta_procesando_minutos := 30, envio_dias := 1, envio_segundos := 0,
    entrega_dias := 4, entrega_segundos := 0,
    reembolso_entregado_sorteo := false, reembolso_cancelado_sorteo := false,
    fecha_reembolso := 0, dias_reposicion := fun _ => 1,
    cantidad_reposicion := fun _ => 24 }

/-- create_detalles_for_pedido run on one cart line of quantity 2 for the
order above, with the cancellation branch taken. -/
def carrito_cancelacion : Carrito :=
  { usuario_id := 7, producto_id := 1, cantidad := 2, fecha_actualizacion := 500 }

def resultado_cancelacion : BD × Pedido × ℚ :=
  create_detalles_for_pedido bd_cancelacion pedido_cancelacion
    [carrito_cancelacion] 1000 params_cancelacion

/-- The ranges of the random draws consumed per product by create_productos:
first-product delay randint(1,12) h + randint(0,59) min, sequential increment
randint(0,1) d + randint(0,8) h + randint(1,59) min + randint(0,59) s, and
tightened increment randint(1,300) s. -/
def rango_aleatorio_producto (rp : RandomProducto) : Prop :=
  3600 ≤ rp.retraso_primer_producto ∧ rp.retraso_primer_producto ≤ 46740 ∧
  60 ≤ rp.incremento_secuencial ∧ rp.incremento_secuencial ≤ 118799 ∧
  1 ≤ rp.incremento_apretado ∧ rp.incremento_apretado ≤ 300

theorem determinar_cantidad_reposicion_ge (nivel ranking : Int) :
    12 ≤ determinar_cantidad_reposicion nivel ranking := by
  unfold determinar_cantidad_reposicion
  split_ifs <;> omega


theorem verificar_reposicion_bloqueada (s : EstadoInv) (r fecha_operacion : Int)
    (dias cantidad : Int) (hu : s.ultima_reposicion = some r)
    (hf : fecha_operacion < r + PERIODO_MINIMO_REPOSICION * 86400) :
    verificar_reposicion_inventario s fecha_operacion dias cantidad = (false, s) := by
  unfold verificar_reposicion_inventario
  by_cases h : s.inventario.cantidad_disponible < UMBRAL_REPOSICION
  · rw [if_pos h, if_pos]
    unfold reposicion_bloqueada
    rw [hu]
    exact decide_eq_true hf
  · rw [if_neg h]

theorem verificar_reposicion_exito_umbral (s : EstadoInv) (fecha_operacion : Int)
    (dias cantidad : Int)
    (h : (verificar_reposicion_inventario s fecha_operacion dias cantidad).1 = true) :
    s.inventario.cantidad_disponible < UMBRAL_REPOSICION := by
  by_contra hc
  unfold verificar_reposicion_inventario at h
  rw [if_neg hc] at h
  exact Bool.false_ne_true h

theorem verificar_reposicion_exito_estado (s s' : EstadoInv) (fecha_operacion : Int)
    (dias cantidad : Int)
    (h : verificar_reposicion_inventario s fecha_operacion dias cantidad = (true, s')) :
    s' = reponer_inventario_en s fecha_operacion dias cantidad := by
  unfold verificar_reposicion_inventario at h
  split_ifs at h with h1 h2
  · exact absurd (congrArg Prod.fst h) (by simp)
  · exact (congrArg Prod.snd h).symm
  · exact absurd (congrArg Prod.fst h) (by simp)

theorem reponer_inventario_en_ultima (s : EstadoInv) (fecha_operacion : Int)
    (dias cantidad : Int) :
    (reponer_inventario_en s fecha_operacion dias cantidad).ultima_reposicion =
      some (reponer_inventario_en s fecha_operacion dias cantidad).inventario.fecha_actualizacion :=
  rfl

theorem reponer_inventario_en_cantidades (s : EstadoInv) (fecha_operacion : Int)
    (dias cantidad : Int) :
    (reponer_inventario_en s fecha_operacion dias cantidad).inventario.cantidad_disponible =
      s.inventario.cantidad_disponible + cantidad ∧
    (reponer_inventario_en s fecha_operacion dias cantidad).inventario.cantidad_mano =
      s.inventario.cantidad_mano + cantidad :=
  ⟨rfl, rfl⟩

theorem verificar_reposicion_coherente (s : EstadoInv) (fecha_operacion : Int)
    (dias cantidad : Int) (h : inventario_coherente s.inventario)
    (hc : 0 ≤ cantidad) :
    inventario_coherente
      (verificar_reposicion_inventario s fecha_operacion dias cantidad).2.inventario := by
  obtain ⟨h1, h2⟩ := h
  obtain ⟨e1, e2⟩ := reponer_inventario_en_cantidades s fecha_operacion dias cantidad
  unfold verificar_reposicion_inventario
  split_ifs
  · exact ⟨h1, h2⟩
  · exact ⟨by rw [e1]; omega, by rw [e1, e2]; omega⟩
  · exact ⟨h1, h2⟩

theorem verificar_reposicion_equilibrada (s : EstadoInv) (fecha_operacion : Int)
    (dias cantidad : Int) (h : inventario_equilibrado s.inventario) :
    inventario_equilibrado
      (verificar_reposicion_inventario s fecha_operacion dias cantidad).2.inventario := by
  unfold inventario_equilibrado at h
  obtain ⟨e1, e2⟩ := reponer_inventario_en_cantidades s fecha_operacion dias cantidad
  unfold inventario_equilibrado verificar_reposicion_inventario
  split_ifs
  · exact h
  · rw [e1, e2, h]
  · exact h

theorem debitar_inventario_cantidades (s : EstadoInv) (c : Int) (f : Int) :
    (debitar_inventario s c f).inventario.cantidad_disponible =
      s.inventario.cantidad_disponible - c ∧
    (debitar_inventario s c f).inventario.cantidad_mano =
      s.inventario.cantidad_mano - c :=
  ⟨rfl, rfl⟩

theorem actualizar_inventario_rechaza (s : EstadoInv) (cantidad_solicitada : Int)
    (fecha_operacion : Int) (dias cantidad : Int)
    (h : s.inventario.cantidad_disponible < cantidad_solicitada) :
    actualizar_inventario_por_pedido s cantidad_solicitada fecha_operacion dias
      cantidad = (false, s) := by
  unfold actualizar_inventario_por_pedido
  rw [if_pos h]

theorem actualizar_inventario_coherente (s : EstadoInv) (cantidad_solicitada : Int)
    (fecha_operacion : Int) (dias cantidad : Int)
    (h : inventario_coherente s.inventario) (hc : 0 ≤ cantidad) :
    inventario_coherente
      (actualizar_inventario_por_pedido s cantidad_solicitada fecha_operacion dias
        cantidad).2.inventario := by
  unfold actualizar_inventario_por_pedido
  by_cases hd : s.inventario.cantidad_disponible < cantidad_solicitada
  · rw [if_pos hd]
    exact h
  · rw [if_neg hd]
    obtain ⟨h1, h2⟩ := h
    obtain ⟨e1, e2⟩ := debitar_inventario_cantidades s cantidad_solicitada fecha_operacion
    exact verificar_reposicion_coherente _ fecha_operacion dias cantidad
      ⟨by rw [e1]; omega, by rw [e1, e2]; omega⟩ hc

theorem actualizar_inventario_equilibrada (s : EstadoInv) (cantidad_solicitada : Int)
    (fecha_operacion : Int) (dias cantidad : Int)
    (h : inventario_equilibrado s.inventario) :
    inventario_equilibrado
      (actualizar_inventario_por_pedido s cantidad_solicitada fecha_operacion dias
        cantidad).2.inventario := by
  unfold inventario_equilibrado at h
  unfold actualizar_inventario_por_pedido
  by_cases hd : s.inventario.cantidad_disponible < cantidad_solicitada
  · rw [if_pos hd]
    exact h
  · rw [if_neg hd]
    obtain ⟨e1, e2⟩ := debitar_inventario_cantidades s cantidad_solicitada fecha_operacion
    exact verificar_reposicion_equilibrada _ fecha_operacion dias cantidad
      (by unfold inventario_equilibrado; rw [e1, e2, h])

theorem reponer_stock_cantidades (s : EstadoInv) (c : Int) (f : Int) :
    (reponer_stock_tras_cancelacion s c f).2.inventario.cantidad_disponible =
      s.inventario.cantidad_disponible + c ∧
    (reponer_stock_tras_cancelacion s c f).2.inventario.cantidad_mano =
      s.inventario.cantidad_mano + c ∧
    (reponer_stock_tras_cancelacion s c f).1 = true :=
  ⟨rfl, rfl, rfl⟩

theorem reponer_stock_coherente (s : EstadoInv) (cantidad_repuesta : Int)
    (fecha_operacion : Int) (h : inventario_coherente s.inventario)
    (hc : 0 ≤ cantidad_repuesta) :
    inventario_coherente
      (reponer_stock_tras_cancelacion s cantidad_repuesta fecha_operacion).2.inventario := by
  obtain ⟨h1, h2⟩ := h
  obtain ⟨e1, e2, _⟩ := reponer_stock_cantidades s cantidad_repuesta fecha_operacion
  exact ⟨by rw [e1]; omega, by rw [e1, e2]; omega⟩

theorem reponer_stock_equilibrada (s : EstadoInv) (cantidad_repuesta : Int)
    (fecha_operacion : Int) (h : inventario_equilibrado s.inventario) :
    inventario_equilibrado
      (reponer_stock_tras_cancelacion s cantidad_repuesta fecha_operacion).2.inventario := by
  unfold inventario_equilibrado at h
  obtain ⟨e1, e2, _⟩ := reponer_stock_cantidades s cantidad_repuesta fecha_operacion
  unfold inventario_equilibrado
  rw [e1, e2, h]

/-- C2: every inventory operation of the seeding pipeline (initial creation,
order-detail debit, popularity-driven restock, restock after cancellation)
establishes or preserves 0 ≤ cantidad_disponible ≤ cantidad_mano; in
particular actualizar_inventario_por_pedido refuses the debit — returning
failure with the state unchanged — when cantidad_disponible is below the
requested quantity.  The restock amounts are nonnegative: every value of
determinar_cantidad_reposicion is at least 12 (and the fallback is 24). -/
theorem invariante_cantidades_inventario (producto : Producto) (f : Int)
    (s : EstadoInv) (cantidad_solicitada : Int) (fecha_operacion : Int)
    (dias cantidad_repuesta : Int) :
    inventario_coherente (create_inventario_inicial_row producto f) ∧
    (inventario_coherente s.inventario → 0 ≤ cantidad_repuesta →
      inventario_coherente
        (verificar_reposicion_inventario s fecha_operacion dias
          cantidad_repuesta).2.inventario) ∧
    (inventario_coherente s.inventario → 0 ≤ cantidad_repuesta →
      inventario_coherente
        (actualizar_inventario_por_pedido s cantidad_solicitada fecha_operacion
          dias cantidad_repuesta).2.inventario) ∧
    (s.inventario.cantidad_disponible < cantidad_solicitada →
      actualizar_inventario_por_pedido s cantidad_solicitada fecha_operacion dias
        cantidad_repuesta = (false, s)) ∧
    (inventario_coherente s.inventario → 0 ≤ cantidad_repuesta →
      inventario_coherente
        (reponer_stock_tras_cancelacion s cantidad_repuesta
          fecha_operacion).2.inventario) ∧
    (∀ nivel ranking, 12 ≤ determinar_cantidad_reposicion nivel ranking) := by
  refine ⟨⟨by show (0 : Int) ≤ 24; decide, by show (24 : Int) ≤ 24; decide⟩, ?_, ?_,
    ?_, ?_, determinar_cantidad_reposicion_ge⟩
  · exact fun h hc => verificar_reposicion_coherente s fecha_operacion dias cantidad_repuesta h hc
  · exact fun h hc => actualizar_inventario_coherente s cantidad_solicitada
      fecha_operacion dias cantidad_repuesta h hc
  · exact fun h => actualizar_inventario_rechaza s cantidad_solicitada
      fecha_operacion dias cantidad_repuesta h
  · exact fun h hc => reponer_stock_coherente s cantidad_repuesta fecha_operacion h hc

/-- Witness for C2 at concrete inputs: a fresh row is coherent, a debit of 3
out of 20 available keeps the invariant, and a debit of 30 out of 20 is
refused with the state unchanged. -/
theorem invariante_cantidades_inventario_witness :
    inventario_coherente (create_inventario_inicial_row
      ⟨1, 10, EstadoProducto.Activo, 0, 0⟩ 5) ∧
    inventario_coherente
      (actualizar_inventario_por_pedido ⟨⟨1, 24, 20, 0, 0⟩, none, none⟩ 3 7 1
        24).2.inventario ∧
    actualizar_inventario_por_pedido ⟨⟨1, 24, 20, 0, 0⟩, none, none⟩ 30 7 1 24 =
      (false, ⟨⟨1, 24, 20, 0, 0⟩, none, none⟩) := by
  have h1 := invariante_cantidades_inventario ⟨1, 10, EstadoProducto.Activo, 0, 0⟩ 5
    ⟨⟨1, 24, 20, 0, 0⟩, none, none⟩ 3 7 1 24
  have h2 := invariante_cantidades_inventario ⟨1, 10, EstadoProducto.Activo, 0, 0⟩ 5
    ⟨⟨1, 24, 20, 0, 0⟩, none, none⟩ 30 7 1 24
  exact ⟨h1.1, h1.2.2.1 ⟨by norm_num, by norm_num⟩ (by norm_num),
    h2.2.2.2.1 (by norm_num)⟩

/-- C10: the stronger implicit invariant cantidad_disponible =
cantidad_mano — initial creation sets both to 24 and each operation (debit,
popularity restock, cancellation restock) changes both fields by the same
amount. -/
theorem inventario_siempre_equilibrado (producto : Producto) (f : Int)
    (s : EstadoInv) (cantidad_solicitada : Int) (fecha_operacion : Int)
    (dias cantidad_repuesta : Int) :
    inventario_equilibrado (create_inventario_inicial_row producto f) ∧
    (create_inventario_inicial_row producto f).cantidad_disponible = 24 ∧
    (create_inventario_inicial_row producto f).cantidad_mano = 24 ∧
    (inventario_equilibrado s.inventario →
      inventario_equilibrado
        (verificar_reposicion_inventario s fecha_operacion dias
          cantidad_repuesta).2.inventario) ∧
    (inventario_equilibrado s.inventario →
      inventario_equilibrado
        (actualizar_inventario_por_pedido s cantidad_solicitada fecha_operacion
          dias cantidad_repuesta).2.inventario) ∧
    (inventario_equilibrado s.inventario →
      inventario_equilibrado
        (reponer_stock_tras_cancelacion s cantidad_repuesta
          fecha_operacion).2.inventario) := by
  refine ⟨rfl, rfl, rfl, ?_, ?_, ?_⟩
  · exact fun h => verificar_reposicion_equilibrada s fecha_operacion dias
      cantidad_repuesta h
  · exact fun h => actualizar_inventario_equilibrada s cantidad_solicitada
      fecha_operacion dias cantidad_repuesta h
  · exact fun h => reponer_stock_equilibrada s cantidad_repuesta fecha_operacion h

/-- Witness for C10 at concrete inputs: the debit of 3 and the cancellation
credit of 2 both keep available equal to on hand. -/
theorem inventario_siempre_equilibrado_witness :
    inventario_equilibrado
      (actualizar_inventario_por_pedido ⟨⟨1, 20, 20, 0, 0⟩, none, none⟩ 3 7 1
        24).2.inventario ∧
    inventario_equilibrado
      (reponer_stock_tras_cancelacion ⟨⟨1, 20, 20, 0, 0⟩, none, none⟩ 2
        7).2.inventario := by
  have h := inventario_siempre_equilibrado ⟨1, 10, EstadoProducto.Activo, 0, 0⟩ 5
    ⟨⟨1, 20, 20, 0, 0⟩, none, none⟩ 3 7 1 24
  have h2 := inventario_siempre_equilibrado ⟨1, 10, EstadoProducto.Activo, 0, 0⟩ 5
    ⟨⟨1, 20, 20, 0, 0⟩, none, none⟩ 3 7 1 2
  exact ⟨h.2.2.2.2.1 rfl, h2.2.2.2.2.2 rfl⟩

/-- C4: a restock is performed only when cantidad_disponible is below
UMBRAL_REPOSICION (12), and after a successful restock the assigned restock
date is recorded, so any further call for the same product dated less than
PERIODO_MINIMO_REPOSICION (20) days after the recorded date returns False and
leaves the state unchanged. -/
theorem reposicion_respeta_cooldown (s s1 : EstadoInv) (f1 f2 : Int)
    (d1 c1 d2 c2 : Int) :
    ((verificar_reposicion_inventario s f1 d1 c1).1 = true →
      s.inventario.cantidad_disponible < UMBRAL_REPOSICION) ∧
    (verificar_reposicion_inventario s f1 d1 c1 = (true, s1) →
      s1.ultima_reposicion = some s1.inventario.fecha_actualizacion ∧
      (f2 < s1.inventario.fecha_actualizacion +
          PERIODO_MINIMO_REPOSICION * 86400 →
        verificar_reposicion_inventario s1 f2 d2 c2 = (false, s1))) := by
  refine ⟨verificar_reposicion_exito_umbral s f1 d1 c1, fun h => ?_⟩
  have hs := verificar_reposicion_exito_estado s s1 f1 d1 c1 h
  subst hs
  refine ⟨reponer_inventario_en_ultima s f1 d1 c1, fun hf => ?_⟩
  exact verificar_reposicion_bloqueada _ _ f2 d2 c2
    (reponer_inventario_en_ultima s f1 d1 c1) hf

/-- Witness for C4: a row with 5 available restocks at operation date 1000
(restock date recorded as 87400) and the second call at date 2000 — within
the 20-day cooldown — is a no-op. -/
theorem reposicion_respeta_cooldown_witness :
    verificar_reposicion_inventario
      (reponer_inventario_en ⟨⟨1, 5, 5, 0, 0⟩, none, none⟩ 1000 1 24) 2000 1 24 =
      (false, reponer_inventario_en ⟨⟨1, 5, 5, 0, 0⟩, none, none⟩ 1000 1 24) ∧
    (⟨⟨1, 5, 5, 0, 0⟩, none, none⟩ : EstadoInv).inventario.cantidad_disponible <
      UMBRAL_REPOSICION := by
  have h := reposicion_respeta_cooldown ⟨⟨1, 5, 5, 0, 0⟩, none, none⟩
    (reponer_inventario_en ⟨⟨1, 5, 5, 0, 0⟩, none, none⟩ 1000 1 24) 1000 2000 1 24 1 24
  have h1 : verificar_reposicion_inventario ⟨⟨1, 5, 5, 0, 0⟩, none, none⟩ 1000 1 24 =
      (true, reponer_inventario_en ⟨⟨1, 5, 5, 0, 0⟩, none, none⟩ 1000 1 24) := by
    decide
  exact ⟨(h.2 h1).2 (by decide), h.1 (by rw [h1])⟩

/-- C8: for 0 < N, 0 ≤ i < N and start ≤ end, generar_fecha_secuencial
returns start + i*(end-start)/(N-1) clamped to never exceed end (start when
N = 1), and it signals ValueError exactly when N ≤ 0, when i is outside
[0, N), or when start > end. -/
theorem generar_fecha_secuencial_contrato (inicio fin : ℚ) (total indice : Int) :
    (0 < total → 0 ≤ indice → indice < total → inicio ≤ fin →
      generar_fecha_secuencial inicio fin total indice =
        .ok (min (inicio + (indice : ℚ) *
          ((fin - inicio) / (((total - 1 : Int) : ℚ)))) fin) ∧
      (total = 1 →
        generar_fecha_secuencial inicio fin total indice = .ok inicio) ∧
      ∃ r, generar_fecha_secuencial inicio fin total indice = .ok r ∧ r ≤ fin) ∧
    (total ≤ 0 →
      generar_fecha_secuencial inicio fin total indice =
        .error "El total de elementos debe ser positivo.") ∧
    (0 < total → ¬(0 ≤ indice ∧ indice < total) →
      generar_fecha_secuencial inicio fin total indice =
        .error "El índice actual está fuera de rango.") ∧
    (0 < total → 0 ≤ indice → indice < total → fin < inicio →
      generar_fecha_secuencial inicio fin total indice =
        .error "La fecha de inicio no puede ser posterior a la fecha de fin.") := by
  refine ⟨fun h1 h2 h3 h4 => ?_, fun h1 => ?_, fun h1 h2 => ?_, fun h1 h2 h3 h4 => ?_⟩
  · have e : generar_fecha_secuencial inicio fin total indice =
        .ok (min (inicio + (indice : ℚ) *
          ((fin - inicio) / (((total - 1 : Int) : ℚ)))) fin) := by
      unfold generar_fecha_secuencial
      rw [if_neg (by omega), if_neg (by omega), if_neg (not_lt.mpr h4)]
      by_cases ht : total = 1
      · subst ht
        norm_num
      · simp only [if_neg ht]
    refine ⟨e, fun ht => ?_, _, e, min_le_right _ _⟩
    · subst ht
      rw [e]
      norm_num
      exact h4
  · unfold generar_fecha_secuencial
    rw [if_pos h1]
  · unfold generar_fecha_secuencial
    rw [if_neg (by omega), if_pos h2]
  · unfold generar_fecha_secuencial
    rw [if_neg (by omega), if_neg (by omega), if_pos h4]

/-- Witness for C8: the middle of three elements spread over [0, 10] and an
out-of-range index. -/
theorem generar_fecha_secuencial_contrato_witness :
    generar_fecha_secuencial 0 10 3 1 =
      .ok (min ((0 : ℚ) + ((1 : Int) : ℚ) *
        ((10 - 0) / (((3 - 1 : Int) : ℚ)))) 10) ∧
    generar_fecha_secuencial 0 10 3 5 =
      .error "El índice actual está fuera de rango." := by
  have h := generar_fecha_secuencial_contrato 0 10 3 1
  have h5 := generar_fecha_secuencial_contrato 0 10 3 5
  exact ⟨(h.1 (by decide) (by decide) (by decide) (by decide)).1,
    h5.2.2.1 (by decide) (by decide)⟩

/-- C9: get_random_datetime_in_range never fails on datetimes: when
min ≥ max it returns min plus the small positive draw — strictly after min —
and when min < max it returns an instant within [min, max]. -/
theorem get_random_datetime_in_range_total (min_date max_date : Int)
    (rand_chico rand_rango : Int) :
    (min_date ≥ max_date → 1 ≤ rand_chico → rand_chico ≤ 300 →
      get_random_datetime_in_range min_date max_date rand_chico rand_rango =
        min_date + rand_chico ∧
      min_date <
        get_random_datetime_in_range min_date max_date rand_chico rand_rango) ∧
    (min_date < max_date → 0 ≤ rand_rango → rand_rango ≤ max_date - min_date →
      min_date ≤
        get_random_datetime_in_range min_date max_date rand_chico rand_rango ∧
      get_random_datetime_in_range min_date max_date rand_chico rand_rango ≤
        max_date) := by
  constructor
  · intro hge h1 h300
    unfold get_random_datetime_in_range
    rw [if_pos hge]
    exact ⟨rfl, by omega⟩
  · intro hlt h0 hr
    unfold get_random_datetime_in_range
    rw [if_neg (by omega)]
    exact ⟨by omega, by omega⟩

/-- Witness for C9: the degenerate range [10, 3] with draw 7 and the normal
range [0, 100] with draw 40. -/
theorem get_random_datetime_in_range_total_witness :
    get_random_datetime_in_range 10 3 7 0 = 10 + 7 ∧
    10 < get_random_datetime_in_range 10 3 7 0 ∧
    0 ≤ get_random_datetime_in_range 0 100 7 40 ∧
    get_random_datetime_in_range 0 100 7 40 ≤ 100 := by
  have h1 := (get_random_datetime_in_range_total 10 3 7 0).1 (by decide) (by decide)
    (by decide)
  have h2 := (get_random_datetime_in_range_total 0 100 7 40).2 (by decide) (by decide)
    (by decide)
  exact ⟨h1.1, h1.2, h2.1, h2.2⟩

theorem update_procesando_spec (pedido : Pedido) (fecha : Int) :
    ((update_pedido_a_procesando pedido fecha).1 = true ↔
      pedido.estado_pedido = EstadoPedido.Pendiente ∧
      pedido.fecha_actualizacion < fecha ∧ fecha ≤ SIMULATION_END_DATE) ∧
    ((update_pedido_a_procesando pedido fecha).1 = false →
      (update_pedido_a_procesando pedido fecha).2 = pedido) ∧
    ((update_pedido_a_procesando pedido fecha).1 = true →
      transicion_permitida pedido.estado_pedido
        (update_pedido_a_procesando pedido fecha).2.estado_pedido ∧
      (update_pedido_a_procesando pedido fecha).2.fecha_actualizacion = fecha) := by
  unfold update_pedido_a_procesando
  split_ifs with h
  · refine ⟨by simp [h], by simp, fun _ => ⟨?_, rfl⟩⟩
    rw [h.1]
    trivial
  · exact ⟨by simp [h], fun _ => rfl, by simp⟩

theorem update_cancelado_spec (bd : BD) (pedido : Pedido) (fecha : Int) :
    ((update_pedido_a_cancelado bd pedido fecha).1 = true ↔
      pedido.estado_pedido = EstadoPedido.Pendiente ∧
      pedido.fecha_actualizacion < fecha ∧ fecha ≤ SIMULATION_END_DATE) ∧
    ((update_pedido_a_cancelado bd pedido fecha).1 = false →
      (update_pedido_a_cancelado bd pedido fecha).2.1 = pedido ∧
      (update_pedido_a_cancelado bd pedido fecha).2.2 = bd) ∧
    ((update_pedido_a_cancelado bd pedido fecha).1 = true →
      transicion_permitida pedido.estado_pedido
        (update_pedido_a_cancelado bd pedido fecha).2.1.estado_pedido ∧
      (update_pedido_a_cancelado bd pedido fecha).2.1.fecha_actualizacion = fecha) := by
  unfold update_pedido_a_cancelado
  split_ifs with h
  · refine ⟨by simp [h], by simp, fun _ => ⟨?_, rfl⟩⟩
    rw [h.1]
    trivial
  · exact ⟨by simp [h], fun _ => ⟨rfl, rfl⟩, by simp⟩

theorem update_enviado_spec (pedido : Pedido) (fecha : Int) :
    ((update_pedido_a_enviado pedido fecha).1 = true ↔
      pedido.estado_pedido = EstadoPedido.Procesando ∧
      pedido.fecha_actualizacion < fecha ∧ fecha ≤ SIMULATION_END_DATE) ∧
    ((update_pedido_a_enviado pedido fecha).1 = false →
      (update_pedido_a_enviado pedido fecha).2 = pedido) ∧
    ((update_pedido_a_enviado pedido fecha).1 = true →
      transicion_permitida pedido.estado_pedido
        (update_pedido_a_enviado pedido fecha).2.estado_pedido ∧
      (update_pedido_a_enviado pedido fecha).2.fecha_actualizacion = fecha) := by
  unfold update_pedido_a_enviado
  split_ifs with h
  · refine ⟨by simp [h], by simp, fun _ => ⟨?_, rfl⟩⟩
    rw [h.1]
    trivial
  · exact ⟨by simp [h], fun _ => rfl, by simp⟩

theorem update_entregado_spec (pedido : Pedido) (fecha : Int) :
    ((update_pedido_a_entregado pedido fecha).1 = true ↔
      pedido.estado_pedido = EstadoPedido.Enviado ∧
      pedido.fecha_actualizacion < fecha ∧ fecha ≤ SIMULATION_END_DATE) ∧
    ((update_pedido_a_entregado pedido fecha).1 = false →
      (update_pedido_a_entregado pedido fecha).2 = pedido) ∧
    ((update_pedido_a_entregado pedido fecha).1 = true →
      transicion_permitida pedido.estado_pedido
        (update_pedido_a_entregado pedido fecha).2.estado_pedido ∧
      (update_pedido_a_entregado pedido fecha).2.fecha_actualizacion = fecha) := by
  unfold update_pedido_a_entregado
  split_ifs with h
  · refine ⟨by simp [h], by simp, fun _ => ⟨?_, rfl⟩⟩
    rw [h.1]
    trivial
  · exact ⟨by simp [h], fun _ => rfl, by simp⟩

theorem update_reembolsado_spec (pedido : Pedido) (fecha : Int) :
    ((update_pedido_a_reembolsado pedido fecha).1 = true ↔
      (pedido.estado_pedido = EstadoPedido.Entregado ∨
        pedido.estado_pedido = EstadoPedido.Cancelado) ∧
      pedido.fecha_actualizacion < fecha ∧ fecha ≤ SIMULATION_END_DATE) ∧
    ((update_pedido_a_reembolsado pedido fecha).1 = false →
      (update_pedido_a_reembolsado pedido fecha).2 = pedido) ∧
    ((update_pedido_a_reembolsado pedido fecha).1 = true →
      transicion_permitida pedido.estado_pedido
        (update_pedido_a_reembolsado pedido fecha).2.estado_pedido ∧
      (update_pedido_a_reembolsado pedido fecha).2.fecha_actualizacion = fecha) := by
  unfold update_pedido_a_reembolsado
  split_ifs with h
  · refine ⟨by simp [h], by simp, fun _ => ⟨?_, rfl⟩⟩
    rcases h.1 with h1 | h1 <;> rw [h1] <;> trivial
  · exact ⟨by simp [h], fun _ => rfl, by simp⟩

/-- C3: each of the five lifecycle update functions applies its transition
exactly when the order is in the permitted source state and the proposed
timestamp is strictly later than the current fecha_actualizacion and at most
SIMULATION_END_DATE; otherwise it returns False and leaves the order (and,
for the cancellation, the session) unchanged.  On success the move is an
allowed edge of the state machine and fecha_actualizacion becomes the
proposed timestamp, so every reachable transition sequence respects the
machine with strictly increasing timestamps. -/
theorem ciclo_vida_pedido_maquina_estados (bd : BD) (pedido : Pedido) (fecha : Int) :
    (((update_pedido_a_procesando pedido fecha).1 = true ↔
      pedido.estado_pedido = EstadoPedido.Pendiente ∧
      pedido.fecha_actualizacion < fecha ∧ fecha ≤ SIMULATION_END_DATE) ∧
    ((update_pedido_a_procesando pedido fecha).1 = false →
      (update_pedido_a_procesando pedido fecha).2 = pedido) ∧
    ((update_pedido_a_procesando pedido fecha).1 = true →
      transicion_permitida pedido.estado_pedido
        (update_pedido_a_procesando pedido fecha).2.estado_pedido ∧
      (update_pedido_a_procesando pedido fecha).2.fecha_actualizacion = fecha)) ∧
    (((update_pedido_a_cancelado bd pedido fecha).1 = true ↔
      pedido.estado_pedido = EstadoPedido.Pendiente ∧
      pedido.fecha_actualizacion < fecha ∧ fecha ≤ SIMULATION_END_DATE) ∧
    ((update_pedido_a_cancelado bd pedido fecha).1 = false →
      (update_pedido_a_cancelado bd pedido fecha).2.1 = pedido ∧
      (update_pedido_a_cancelado bd pedido fecha).2.2 = bd) ∧
    ((update_pedido_a_cancelado bd pedido fecha).1 = true →
      transicion_permitida pedido.estado_pedido
        (update_pedido_a_cancelado bd pedido fecha).2.1.estado_pedido ∧
      (update_pedido_a_cancelado bd pedido fecha).2.1.fecha_actualizacion = fecha)) ∧
    (((update_pedido_a_enviado pedido fecha).1 = true ↔
      pedido.estado_pedido = EstadoPedido.Procesando ∧
      pedido.fecha_actualizacion < fecha ∧ fecha ≤ SIMULATION_END_DATE) ∧
    ((update_pedido_a_enviado pedido fecha).1 = false →
      (update_pedido_a_enviado pedido fecha).2 = pedido) ∧
    ((update_pedido_a_enviado pedido fecha).1 = true →
      transicion_permitida pedido.estado_pedido
        (update_pedido_a_enviado pedido fecha).2.estado_pedido ∧
      (update_pedido_a_enviado pedido fecha).2.fecha_actualizacion = fecha)) ∧
    (((update_pedido_a_entregado pedido fecha).1 = true ↔
      pedido.estado_pedido = EstadoPedido.Enviado ∧
      pedido.fecha_actualizacion < fecha ∧ fecha ≤ SIMULATION_END_DATE) ∧
    ((update_pedido_a_entregado pedido fecha).1 = false →
      (update_pedido_a_entregado pedido fecha).2 = pedido) ∧
    ((update_pedido_a_entregado pedido fecha).1 = true →
      transicion_permitida pedido.estado_pedido
        (update_pedido_a_entregado pedido fecha).2.estado_pedido ∧
      (update_pedido_a_entregado pedido fecha).2.fecha_actualizacion = fecha)) ∧
    (((update_pedido_a_reembolsado pedido fecha).1 = true ↔
      (pedido.estado_pedido = EstadoPedido.Entregado ∨
        pedido.estado_pedido = EstadoPedido.Cancelado) ∧
      pedido.fecha_actualizacion < fecha ∧ fecha ≤ SIMULATION_END_DATE) ∧
    ((update_pedido_a_reembolsado pedido fecha).1 = false →
      (update_pedido_a_reembolsado pedido fecha).2 = pedido) ∧
    ((update_pedido_a_reembolsado pedido fecha).1 = true →
      transicion_permitida pedido.estado_pedido
        (update_pedido_a_reembolsado pedido fecha).2.estado_pedido ∧
      (update_pedido_a_reembolsado pedido fecha).2.fecha_actualizacion = fecha)) :=
  ⟨update_procesando_spec pedido fecha, update_cancelado_spec bd pedido fecha,
    update_enviado_spec pedido fecha, update_entregado_spec pedido fecha,
    update_reembolsado_spec pedido fecha⟩

/-- Witness for C3: a Pendiente order at time 0 transitions to Procesando at
time 500, and the same transition proposed at time 50 on an order updated at
100 is a silent no-op. -/
theorem ciclo_vida_pedido_maquina_estados_witness :
    (update_pedido_a_procesando ⟨EstadoPedido.Pendiente, 0, 0, []⟩ 500).1 = true ∧
    (update_pedido_a_procesando ⟨EstadoPedido.Pendiente, 0, 0, []⟩
      500).2.fecha_actualizacion = 500 ∧
    (update_pedido_a_procesando ⟨EstadoPedido.Pendiente, 100, 100, []⟩ 50).2 =
      ⟨EstadoPedido.Pendiente, 100, 100, []⟩ := by
  have h := ciclo_vida_pedido_maquina_estados ⟨[], [], []⟩
    ⟨EstadoPedido.Pendiente, 0, 0, []⟩ 500
  have h2 := ciclo_vida_pedido_maquina_estados ⟨[], [], []⟩
    ⟨EstadoPedido.Pendiente, 100, 100, []⟩ 50
  have ht : (update_pedido_a_procesando ⟨EstadoPedido.Pendiente, 0, 0, []⟩ 500).1 =
      true := h.1.1.mpr ⟨rfl, by decide, by decide⟩
  have hf : (update_pedido_a_procesando ⟨EstadoPedido.Pendiente, 100, 100, []⟩ 50).1 =
      false := by
    refine Bool.eq_false_iff.mpr (fun hc => ?_)
    exact absurd (h2.1.1.mp hc).2.1 (by decide)
  exact ⟨ht, ((h.1.2.2) ht).2, h2.1.2.1 hf⟩

theorem seleccionar_descuento_en_ventana (todos_los_descuentos : List Descuento)
    (usuario_ya_uso : Nat → Bool) (fecha_pedido_definitiva : Int)
    (sorteo_usar_descuento : Bool) (eleccion : Nat) (d : Descuento)
    (h : seleccionar_descuento todos_los_descuentos usuario_ya_uso
      fecha_pedido_definitiva sorteo_usar_descuento eleccion = some d) :
    d.fecha_inicio ≤ fecha_pedido_definitiva ∧
    fecha_pedido_definitiva ≤ d.fecha_fin := by
  unfold seleccionar_descuento at h
  split_ifs at h
  have hmem : d ∈ filtrar_descuentos_no_usados
      (filtrar_descuentos_validos todos_los_descuentos fecha_pedido_definitiva)
      usuario_ya_uso := List.get?_mem h
  have hval : d ∈ filtrar_descuentos_validos todos_los_descuentos
      fecha_pedido_definitiva := List.mem_of_mem_filter hmem
  have hp := (List.mem_filter.mp hval).2
  exact of_decide_eq_true hp

/-- C5: whenever create_pedidos attaches a discount to an order (recording a
HistorialDescuento row and applying the amount), the discount was drawn from
the list filtered by `fecha_inicio ≤ fecha_pedido ≤ fecha_fin`, and the
order's fecha_registro is that very date — so no discount is ever attached
to an order whose fecha_registro falls outside its validity window. -/
theorem descuento_aplicado_en_ventana (usuario_id : Nat)
    (fecha_pedido_definitiva : Int) (todos_los_descuentos : List Descuento)
    (usuario_ya_uso : Nat → Bool) (sorteo_usar_descuento : Bool) (eleccion : Nat)
    (descuento : Descuento) (historial : HistorialDescuento)
    (h : (crear_pedido_con_descuento usuario_id fecha_pedido_definitiva
      todos_los_descuentos usuario_ya_uso sorteo_usar_descuento eleccion).2 =
      some (descuento, historial)) :
    descuento.fecha_inicio ≤
      (crear_pedido_con_descuento usuario_id fecha_pedido_definitiva
        todos_los_descuentos usuario_ya_uso sorteo_usar_descuento
        eleccion).1.fecha_registro ∧
    (crear_pedido_con_descuento usuario_id fecha_pedido_definitiva
      todos_los_descuentos usuario_ya_uso sorteo_usar_descuento
      eleccion).1.fecha_registro ≤ descuento.fecha_fin ∧
    historial.descuento_id = descuento.id ∧
    historial.fecha_registro =
      (crear_pedido_con_descuento usuario_id fecha_pedido_definitiva
        todos_los_descuentos usuario_ya_uso sorteo_usar_descuento
        eleccion).1.fecha_registro := by
  unfold crear_pedido_con_descuento at h ⊢
  rcases hsel : seleccionar_descuento todos_los_descuentos usuario_ya_uso
      fecha_pedido_definitiva sorteo_usar_descuento eleccion with _ | d0
  · rw [hsel] at h
    simp at h
  · rw [hsel] at h
    have hw := seleccionar_descuento_en_ventana todos_los_descuentos usuario_ya_uso
      fecha_pedido_definitiva sorteo_usar_descuento eleccion d0 hsel
    simp only [Option.some.injEq, Prod.mk.injEq] at h
    obtain ⟨hd, hh⟩ := h
    subst hd
    exact ⟨hw.1, hw.2, by rw [← hh], by rw [← hh]⟩

/-- Witness for C5: a single discount valid over [0, 100] attached to an
order dated 50. -/
theorem descuento_aplicado_en_ventana_witness :
    (⟨1, 10, 0, 100⟩ : Descuento).fecha_inicio ≤
      (crear_pedido_con_descuento 7 50 [⟨1, 10, 0, 100⟩] (fun _ => false) true
        0).1.fecha_registro ∧
    (crear_pedido_con_descuento 7 50 [⟨1, 10, 0, 100⟩] (fun _ => false) true
      0).1.fecha_registro ≤ (⟨1, 10, 0, 100⟩ : Descuento).fecha_fin := by
  have h := descuento_aplicado_en_ventana 7 50 [⟨1, 10, 0, 100⟩] (fun _ => false)
    true 0 ⟨1, 10, 0, 100⟩ ⟨7, 1, 50, 50⟩ (by decide)
  exact ⟨h.1, h.2.1⟩

theorem convertir_sesiones_exacto (draws : List ℚ) (objetivo : Nat)
    (hr : ∀ r ∈ draws, 0 ≤ r ∧ r < 1) (hle : objetivo ≤ draws.length) :
    convertir_sesiones draws objetivo = objetivo := by
  induction draws generalizing objetivo with
  | nil =>
    simp only [List.length_nil, Nat.le_zero] at hle
    rw [hle]
    rfl
  | cons r rs ih =>
    obtain ⟨hr0, hr1⟩ := hr r (List.mem_cons_self r rs)
    have hr2 : ∀ x ∈ rs, 0 ≤ x ∧ x < 1 := fun x hx => hr x (List.mem_cons_of_mem r hx)
    unfold convertir_sesiones
    by_cases h0 : objetivo = 0
    · rw [if_pos h0, h0]
    · rw [if_neg h0]
      simp only [List.length_cons] at hle
      by_cases hlen : rs.length > 0
      · rw [if_pos hlen]
        by_cases hacc : r > (objetivo : ℚ) / (rs.length : ℚ)
        · rw [if_pos hacc]
          have hobj : objetivo ≤ rs.length := by
            by_contra hgt
            have he : objetivo = rs.length + 1 := by omega
            have hrs : (0 : ℚ) < (rs.length : ℚ) := by exact_mod_cast hlen
            have hlt : (rs.length : ℚ) < (objetivo : ℚ) := by
              rw [he]
              push_cast
              linarith
            have hp1 : (1 : ℚ) < (objetivo : ℚ) / (rs.length : ℚ) :=
              (one_lt_div hrs).mpr hlt
            linarith
          exact ih objetivo hr2 hobj
        · rw [if_neg hacc]
          have := ih (objetivo - 1) hr2 (by omega)
          rw [this]
          omega
      · rw [if_neg hlen, if_neg (by linarith : ¬ r > (1 : ℚ))]
        have hrs0 : rs = [] := List.length_eq_zero.mp (by omega)
        have h1 : objetivo = 1 := by omega
        subst hrs0
        rw [h1]
        rfl

/-- C6: with one random draw per purchase session and every accepted session
producing an order, the dynamic acceptance probability
pedidos_restantes / sesiones_restantes makes the number of created orders
equal exactly max(1, floor(num_sessions * porcentaje_conversion)) for every
draw sequence, with the conversion fraction drawn from [0.6, 0.9]. -/
theorem conversion_objetivo_exacta (draws : List ℚ) (porcentaje_conversion : ℚ)
    (hne : draws ≠ [])
    (hr : ∀ r ∈ draws, 0 ≤ r ∧ r < 1)
    (_hc1 : 3 / 5 ≤ porcentaje_conversion) (hc2 : porcentaje_conversion ≤ 9 / 10) :
    convertir_sesiones draws
        (num_sesiones_a_convertir draws.length porcentaje_conversion) =
      num_sesiones_a_convertir draws.length porcentaje_conversion := by
  apply convertir_sesiones_exacto draws _ hr
  unfold num_sesiones_a_convertir
  have hlen : 1 ≤ draws.length := List.length_pos.mpr hne
  have hfloor : ⌊(draws.length : ℚ) * porcentaje_conversion⌋ < (draws.length : Int) := by
    rw [Int.floor_lt]
    push_cast
    have hpos : (0 : ℚ) < (draws.length : ℚ) := by exact_mod_cast hlen
    nlinarith
  omega

/-- Witness for C6: three sessions, conversion fraction 3/5 and all three
draws equal to 0 (every comparison accepts until the target is filled). -/
theorem conversion_objetivo_exacta_witness :
    convertir_sesiones [0, 0, 0] (num_sesiones_a_convertir 3 (3 / 5)) =
      num_sesiones_a_convertir 3 (3 / 5) := by
  have h := conversion_objetivo_exacta [0, 0, 0] (3 / 5) (by decide)
    (by decide) (le_refl _) (by norm_num)
  simpa using h

/-- C1 fails on the code: a Pending order with one detail line of quantity 2,
cancelled 10 minutes after creation, ends with 26 units available and on
hand instead of the pre-order 24.  update_pedido_a_cancelado credits
detalle.cantidad via reponer_stock_tras_cancelacion, but the debit for the
detail lines is skipped entirely for orders cancelled during the simulation,
so the credit inflates stock above its pre-order level. -/
theorem cancelacion_no_restaura_inventario :
    (buscarInventario bd_cancelacion.inventarios 1).map
      Inventario.cantidad_disponible = some 24 ∧
    resultado_cancelacion.2.1.estado_pedido = EstadoPedido.Cancelado ∧
    (buscarInventario resultado_cancelacion.1.inventarios 1).map
      Inventario.cantidad_disponible = some 26 ∧
    (buscarInventario resultado_cancelacion.1.inventarios 1).map
      Inventario.cantidad_mano = some 26 ∧
    ¬((buscarInventario resultado_cancelacion.1.inventarios 1).map
        Inventario.cantidad_disponible =
      (buscarInventario bd_cancelacion.inventarios 1).map
        Inventario.cantidad_disponible) := by
  refine ⟨rfl, rfl, rfl, rfl, ?_⟩
  intro h
  exact absurd (rfl.trans h) (by decide)

theorem fecha_producto_some (reg ultima limite : Int) (primer : Bool)
    (rp : RandomProducto) (f : Int)
    (hinc : 0 < rp.incremento_secuencial) (hap : 0 < rp.incremento_apretado)
    (hret : 0 < rp.retraso_primer_producto)
    (h : fecha_producto reg ultima limite primer rp = some f) :
    ultima < f ∧ reg ≤ f ∧ (primer = true → reg < f) ∧ f < limite := by
  have hmin : reg ≤ fecha_min_por_proveedor reg primer rp ∧
      (primer = true → reg < fecha_min_por_proveedor reg primer rp) := by
    unfold fecha_min_por_proveedor
    cases primer
    · simp
    · simp
      omega
  unfold fecha_producto at h
  split_ifs at h with h1 h2
  · obtain rfl := Option.some.inj h
    exact ⟨by omega, by omega,
      fun hp => by have := hmin.2 hp; omega, by omega⟩
  · obtain rfl := Option.some.inj h
    exact ⟨by omega, by omega,
      fun hp => by have := hmin.2 hp; omega, by omega⟩

theorem crear_fechas_proveedor_prop (reg limite : Int) (rng : Nat → RandomProducto)
    (hrng : ∀ j, 0 < (rng j).incremento_secuencial ∧
      0 < (rng j).incremento_apretado ∧ 0 < (rng j).retraso_primer_producto) :
    ∀ (n : Nat) (ultima : Int) (primer : Bool) (k : Nat),
      (primer = true ∨ reg < ultima) →
      List.Chain' (· < ·) (crear_fechas_proveedor reg limite rng n ultima primer k).1 ∧
      (∀ f ∈ (crear_fechas_proveedor reg limite rng n ultima primer k).1,
        ultima < f ∧ reg < f) ∧
      ultima ≤ (crear_fechas_proveedor reg limite rng n ultima primer k).2.1 ∧
      (∀ f ∈ (crear_fechas_proveedor reg limite rng n ultima primer k).1,
        f ≤ (crear_fechas_proveedor reg limite rng n ultima primer k).2.1) := by
  intro n
  induction n with
  | zero =>
    intro ultima primer k _
    simp [crear_fechas_proveedor]
  | succ n ih =>
    intro ultima primer k hp
    rcases hfp : fecha_producto reg ultima limite primer (rng k) with _ | f
    · simp [crear_fechas_proveedor, hfp]
    · have hf := fecha_producto_some reg ultima limite primer (rng k) f
        (hrng k).1 (hrng k).2.1 (hrng k).2.2 hfp
      have hregf : reg < f := by
        rcases hp with hp | hp
        · exact hf.2.2.1 hp
        · have := hf.1
          omega
      obtain ⟨ch, hmem, hult, hbound⟩ := ih f false (k + 1) (Or.inr hregf)
      simp only [crear_fechas_proveedor, hfp]
      refine ⟨?_, ?_, ?_, ?_⟩
      · rw [List.chain'_cons']
        exact ⟨fun b hb => (hmem b (List.mem_of_mem_head? hb)).1, ch⟩
      · intro g hg
        rcases List.mem_cons.mp hg with rfl | hg
        · exact ⟨hf.1, hregf⟩
        · have h2 := hmem g hg
          have h1 := hf.1
          exact ⟨by omega, h2.2⟩
      · exact le_trans (le_of_lt hf.1) hult
      · intro g hg
        rcases List.mem_cons.mp hg with rfl | hg
        · exact hult
        · exact hbound g hg

theorem crear_productos_bucle_prop (limite : Int) (rng : Nat → RandomProducto)
    (hrng : ∀ j, 0 < (rng j).incremento_secuencial ∧
      0 < (rng j).incremento_apretado ∧ 0 < (rng j).retraso_primer_producto) :
    ∀ (lista : List (Proveedor × Nat)) (ultima : Int) (k : Nat),
      List.Chain' (fun a b => a.2 < b.2)
        (crear_productos_bucle limite rng lista ultima k) ∧
      ∀ par ∈ crear_productos_bucle limite rng lista ultima k,
        par.1.fecha_registro < par.2 ∧ ultima < par.2 := by
  intro lista
  induction lista with
  | nil =>
    intro ultima k
    simp [crear_productos_bucle]
  | cons pc resto ih =>
    intro ultima k
    obtain ⟨prov, cnt⟩ := pc
    by_cases hc : cnt = 0
    · simp only [crear_productos_bucle, if_pos hc]
      exact ih ultima k
    · by_cases hcand : max (prov.fecha_registro + 3600) (ultima + 1) ≥ limite
      · simp only [crear_productos_bucle, if_neg hc, if_pos hcand]
        exact ih ultima k
      · obtain ⟨ch, hmem, hult, hbound⟩ := crear_fechas_proveedor_prop
          prov.fecha_registro limite rng hrng cnt ultima true k (Or.inl rfl)
        by_cases hdet : (crear_fechas_proveedor prov.fecha_registro limite rng
            cnt ultima true k).2.2.2 = true
        · simp only [crear_productos_bucle, if_neg hc, if_neg hcand, if_pos hdet]
          constructor
          · rw [List.chain'_map]
            exact ch
          · intro par hpar
            obtain ⟨g, hg, rfl⟩ := List.mem_map.mp hpar
            exact ⟨(hmem g hg).2, (hmem g hg).1⟩
        · simp only [crear_productos_bucle, if_neg hc, if_neg hcand, if_neg hdet]
          obtain ⟨chR, hmemR⟩ := ih
            (crear_fechas_proveedor prov.fecha_registro limite rng cnt ultima
              true k).2.1
            (crear_fechas_proveedor prov.fecha_registro limite rng cnt ultima
              true k).2.2.1
          constructor
          · rw [List.chain'_append]
            refine ⟨by rw [List.chain'_map]; exact ch, chR, ?_⟩
            intro x hx y hy
            obtain ⟨g, hg, rfl⟩ := List.mem_map.mp (List.mem_of_mem_getLast? hx)
            have hy2 := (hmemR y (List.mem_of_mem_head? hy)).2
            have hgb := hbound g hg
            show g < y.2
            omega
          · intro par hpar
            rcases List.mem_append.mp hpar with hpar | hpar
            · obtain ⟨g, hg, rfl⟩ := List.mem_map.mp hpar
              exact ⟨(hmem g hg).2, (hmem g hg).1⟩
            · have h2 := hmemR par hpar
              exact ⟨h2.1, by have := hult; omega⟩

theorem crear_fechas_sin_detener (reg limite : Int) (rng : Nat → RandomProducto)
    (hrng : ∀ j, rango_aleatorio_producto (rng j)) :
    ∀ (n : Nat) (ultima : Int) (primer : Bool) (k : Nat),
      max (reg + 46740) (ultima + 118799) + n * 118799 < limite + 118799 →
      (crear_fechas_proveedor reg limite rng n ultima primer k).1.length = n ∧
      (crear_fechas_proveedor reg limite rng n ultima primer k).2.2.2 = false := by
  intro n
  induction n with
  | zero =>
    intro ultima primer k _
    simp [crear_fechas_proveedor]
  | succ n ih =>
    intro ultima primer k hb
    obtain ⟨ha1, ha2, hi1, hi2, hp1, hp2⟩ := hrng k
    have hA : fecha_min_por_proveedor reg primer (rng k) ≤ reg + 46740 := by
      unfold fecha_min_por_proveedor
      cases primer
      · simp
      · simp
        omega
    have hprop : ¬(max (fecha_min_por_proveedor reg primer (rng k))
        (ultima + (rng k).incremento_secuencial) ≥ limite) := by
      omega
    have hfp : fecha_producto reg ultima limite primer (rng k) =
        some (max (fecha_min_por_proveedor reg primer (rng k))
          (ultima + (rng k).incremento_secuencial)) := by
      unfold fecha_producto
      rw [if_neg hprop]
    have hbound2 : max (reg + 46740)
        ((max (fecha_min_por_proveedor reg primer (rng k))
          (ultima + (rng k).incremento_secuencial)) + 118799) + n * 118799 <
        limite + 118799 := by
      omega
    have hrec := ih (max (fecha_min_por_proveedor reg primer (rng k))
      (ultima + (rng k).incremento_secuencial)) false (k + 1) hbound2
    simp only [crear_fechas_proveedor, hfp]
    exact ⟨by simp [hrec.1], hrec.2⟩

theorem distribuir_tres_un_proveedor (p : Proveedor) :
    distribuir_productos 3 [p] = [(p.id, 3)] := by
  have hD : 1 ≤ dias_disponibles p := le_max_left 1 _
  have hD0 : ((dias_disponibles p : ℚ)) ≠ 0 := by
    exact_mod_cast (by omega : (dias_disponibles p : Int) ≠ 0)
  unfold distribuir_productos
  simp only [List.length_cons, List.length_nil, List.map_cons, List.map_nil,
    List.foldr_cons, List.foldr_nil, List.foldl_cons, List.foldl_nil]
  norm_num [sumarConteo, sumaConteos, hD0]
  simp only [if_pos (show 0 < dias_disponibles p by omega)]
  norm_num

/-- C7: in create_productos every created product's fecha_registro strictly
exceeds its provider's fecha_registro and the dates strictly increase across
all products in creation order (one global monotone clock); and for a single
provider registered at T0 with count = 3 and the date ceiling far enough away,
exactly 3 products are produced, strictly increasing, all strictly after
T0. -/
theorem productos_reloj_global_monotono (count : Nat) (proveedores : List Proveedor)
    (ahora : Int) (rng : Nat → RandomProducto)
    (hrng : ∀ j, rango_aleatorio_producto (rng j)) :
    (List.Chain' (fun a b => a.2 < b.2)
        (create_productos count proveedores ahora rng) ∧
      ∀ par ∈ create_productos count proveedores ahora rng,
        par.1.fecha_registro < par.2) ∧
    (∀ p : Proveedor,
      max PRODUCTOS_START_DATE_LIMIT p.fecha_registro + 356397 <
        min PRODUCTOS_END_DATE_LIMIT ahora →
      (create_productos 3 [p] ahora rng).length = 3 ∧
      List.Chain' (fun a b => a.2 < b.2) (create_productos 3 [p] ahora rng) ∧
      ∀ par ∈ create_productos 3 [p] ahora rng, p.fecha_registro < par.2) := by
  have hrng1 : ∀ j, 0 < (rng j).incremento_secuencial ∧
      0 < (rng j).incremento_apretado ∧ 0 < (rng j).retraso_primer_producto := by
    intro j
    obtain ⟨h1, h2, h3, h4, h5, h6⟩ := hrng j
    exact ⟨by omega, by omega, by omega⟩
  constructor
  · unfold create_productos
    rcases hord : ordenar_proveedores proveedores with _ | ⟨primero, restantes⟩
    · simp
    · obtain ⟨ch, hmem⟩ := crear_productos_bucle_prop
        (min PRODUCTOS_END_DATE_LIMIT ahora) rng hrng1
        ((primero :: restantes).map (fun p =>
          (p, (obtenerConteo (distribuir_productos count (primero :: restantes))
            p.id).toNat)))
        (max PRODUCTOS_START_DATE_LIMIT (primero.fecha_registro - 1)) 0
      exact ⟨ch, fun par hp => (hmem par hp).1⟩
  · intro p hroom
    have hred : create_productos 3 [p] ahora rng =
        crear_productos_bucle (min PRODUCTOS_END_DATE_LIMIT ahora) rng
          [(p, 3)] (max PRODUCTOS_START_DATE_LIMIT (p.fecha_registro - 1)) 0 := by
      show crear_productos_bucle (min PRODUCTOS_END_DATE_LIMIT ahora) rng
          ([p].map (fun q =>
            (q, (obtenerConteo (distribuir_productos 3 [p]) q.id).toNat)))
          (max PRODUCTOS_START_DATE_LIMIT (p.fecha_registro - 1)) 0 =
        crear_productos_bucle (min PRODUCTOS_END_DATE_LIMIT ahora) rng
          [(p, 3)] (max PRODUCTOS_START_DATE_LIMIT (p.fecha_registro - 1)) 0
      rw [distribuir_tres_un_proveedor p]
      simp [obtenerConteo]
    have hsd := crear_fechas_sin_detener p.fecha_registro
      (min PRODUCTOS_END_DATE_LIMIT ahora) rng hrng 3
      (max PRODUCTOS_START_DATE_LIMIT (p.fecha_registro - 1)) true 0 (by push_cast; omega)
    have hcand : ¬(max (p.fecha_registro + 3600)
        (max PRODUCTOS_START_DATE_LIMIT (p.fecha_registro - 1) + 1) ≥
        min PRODUCTOS_END_DATE_LIMIT ahora) := by
      omega
    have hdet : ¬((crear_fechas_proveedor p.fecha_registro
        (min PRODUCTOS_END_DATE_LIMIT ahora) rng 3
        (max PRODUCTOS_START_DATE_LIMIT (p.fecha_registro - 1)) true 0).2.2.2 =
        true) := by
      rw [hsd.2]
      simp
    have hbu : crear_productos_bucle (min PRODUCTOS_END_DATE_LIMIT ahora) rng
        [(p, 3)] (max PRODUCTOS_START_DATE_LIMIT (p.fecha_registro - 1)) 0 =
        (crear_fechas_proveedor p.fecha_registro
          (min PRODUCTOS_END_DATE_LIMIT ahora) rng 3
          (max PRODUCTOS_START_DATE_LIMIT (p.fecha_registro - 1)) true 0).1.map
          (fun f => (p, f)) := by
      simp only [crear_productos_bucle, if_neg (by omega : ¬(3 = 0)),
        if_neg hcand, if_neg hdet]
      simp [crear_productos_bucle]
    obtain ⟨ch, hmem, _, _⟩ := crear_fechas_proveedor_prop p.fecha_registro
      (min PRODUCTOS_END_DATE_LIMIT ahora) rng hrng1 3
      (max PRODUCTOS_START_DATE_LIMIT (p.fecha_registro - 1)) true 0 (Or.inl rfl)
    rw [hred, hbu]
    refine ⟨by simp [hsd.1], by rw [List.chain'_map]; exact ch, ?_⟩
    intro par hpar
    obtain ⟨g, hg, rfl⟩ := List.mem_map.mp hpar
    exact (hmem g hg).2

/-- Witness for C7 at a concrete run: one provider registered at 2000000 s,
count 3, the clock far from the ceiling and constant in-range draws. -/
theorem productos_reloj_global_monotono_witness :
    (create_productos 3 [⟨1, 2000000⟩] 1000000000
      (fun _ => ⟨3600, 60, 1⟩)).length = 3 ∧
    List.Chain' (fun a b => a.2 < b.2)
      (create_productos 3 [⟨1, 2000000⟩] 1000000000 (fun _ => ⟨3600, 60, 1⟩)) ∧
    ∀ par ∈ create_productos 3 [⟨1, 2000000⟩] 1000000000
      (fun _ => ⟨3600, 60, 1⟩), (2000000 : Int) < par.2 := by
  have hr : ∀ j : Nat,
      rango_aleatorio_producto ((fun _ => (⟨3600, 60, 1⟩ : RandomProducto)) j) := by
    intro j
    show rango_aleatorio_producto (⟨3600, 60, 1⟩ : RandomProducto)
    exact ⟨by decide, by decide, by decide, by decide, by decide, by decide⟩
  have h := (productos_reloj_global_monotono 3 [⟨1, 2000000⟩] 1000000000
    (fun _ => ⟨3600, 60, 1⟩) hr).2 ⟨1, 2000000⟩ (by decide)
  exact h

end Amaluz
